import Mathlib

/-!
# Verification of the sipmanager SDP codec and dialog state machine

A shallow embedding, in Lean 4, of the Go sources of the
`safermobility/sipmanager` library: the SDP parser/serializer
(`sdp` package) and the dialog state machine / manager send path
(`dialog` package).  Pure Go functions become Lean functions; the
mutable dialog record becomes explicit state passing; fallible Go
functions return `Except`/`Option`.  Machine integers (`uint8`,
`uint16`, Go `int`) are modelled as `Nat`/`Int` with the bounds the
source checks explicitly.

Helpers from Go's standard library (`strings.Fields`, `strings.Split`,
`strconv.Atoi`, `strconv.ParseUint`, ...) are given direct executable
definitions below, with the exact behaviour the source relies on.
-/

namespace Sip

/-- Go `unicode.IsSpace` on the ASCII whitespace characters used by
`strings.Fields` (the SDP lines never contain other space runes). -/
def goIsSpace (c : Char) : Bool :=
  c = ' ' || c = '\t' || c = '\n' || c = '\x0b' || c = '\x0c' || c = '\r'

/-- Splitter for Go `strings.Fields`: splits around runs of whitespace,
dropping empty fields. -/
def fieldsAux (acc : List Char) : List Char → List (List Char)
  | [] => if acc.isEmpty then [] else [acc.reverse]
  | c :: rest =>
    if goIsSpace c then
      if acc.isEmpty then fieldsAux [] rest
      else acc.reverse :: fieldsAux [] rest
    else fieldsAux (c :: acc) rest

/-- Go `strings.Fields`. -/
def goFields (s : String) : List String :=
  (fieldsAux [] s.data).map List.asString

/-- Splitter for Go `strings.Split` with a one-character separator:
always returns at least one (possibly empty) piece. -/
def splitAllAux (sep : Char) : List Char → List (List Char)
  | [] => [[]]
  | c :: rest =>
    if c = sep then [] :: splitAllAux sep rest
    else
      match splitAllAux sep rest with
      | [] => [[c]]
      | l :: ls => (c :: l) :: ls

/-- Go `strings.Split(s, sep)` for a one-character separator. -/
def goSplitAll (s : String) (sep : Char) : List String :=
  (splitAllAux sep s.data).map List.asString

/-- Splitter for Go `strings.SplitN(s, sep, 2)`: cut at the first
occurrence of the separator, if any. -/
def splitN2Aux (sep : Char) : List Char → List Char × Option (List Char)
  | [] => ([], none)
  | c :: rest =>
    if c = sep then ([], some rest)
    else
      let r := splitN2Aux sep rest
      (c :: r.1, r.2)

/-- Go `strings.SplitN(s, sep, 2)` for a one-character separator. -/
def goSplitN2 (s : String) (sep : Char) : List String :=
  match splitN2Aux sep s.data with
  | (a, none) => [List.asString a]
  | (a, some b) => [List.asString a, List.asString b]

/-- Splitter for the SDP line separator `"\r\n"` (Go
`strings.Split(s, "\r\n")`). -/
def splitCRLF : List Char → List (List Char)
  | [] => [[]]
  | '\r' :: '\n' :: rest => [] :: splitCRLF rest
  | c :: rest =>
    match splitCRLF rest with
    | [] => [[c]]
    | l :: ls => (c :: l) :: ls

/-- Value of a list of decimal digit characters. -/
def digitsVal (cs : List Char) : Nat :=
  cs.foldl (fun a c => a * 10 + (c.toNat - 48)) 0

/-- Go `strconv.ParseUint(s, 10, bits)` modelled with an explicit
upper bound (`2^bits - 1`); no sign is accepted. -/
def goParseUint (s : String) (maxVal : Nat) : Option Nat :=
  let cs := s.data
  if cs.isEmpty then none
  else if cs.all Char.isDigit then
    let n := digitsVal cs
    if n ≤ maxVal then some n else none
  else none

/-- Go `strconv.Atoi` / `strconv.ParseInt(s, 10, 0)`: optional sign and
decimal digits (the 64-bit range is never approached by SDP values, so
no overflow bound is modelled). -/
def goAtoi (s : String) : Option Int :=
  match s.data with
  | [] => none
  | '+' :: rest =>
    if rest.isEmpty || !rest.all Char.isDigit then none
    else some (Int.ofNat (digitsVal rest))
  | '-' :: rest =>
    if rest.isEmpty || !rest.all Char.isDigit then none
    else some (-(Int.ofNat (digitsVal rest)))
  | cs =>
    if cs.all Char.isDigit then some (Int.ofNat (digitsVal cs)) else none

/-- Go `strconv.Itoa` for the `int` values the serializer prints. -/
def goItoa (i : Int) : String :=
  if i < 0 then "-" ++ Nat.repr i.natAbs else Nat.repr i.natAbs

/-- Modelled from the spec: `util.IsIPv6` (the `util` package is not
under `src/`); per spec §4.4 "An IPv6 address is detected and
`c=IN IP6` emitted" — an address string is IPv6 when it contains a
colon. -/
def IsIPv6 (s : String) : Bool :=
  s.data.contains ':'

end Sip

namespace Sdp

open Sip

/-- `sdp.Codec` (src/sdp/codec.go).  `PT uint8` becomes a `Nat` that the
parser bounds by 255; `Rate int` becomes `Int`.  The unexported `valid`
flag is kept: it records whether an rtpmap line was parsed. -/
structure Codec where
  pt : Nat
  name : String := ""
  rate : Int := 0
  param : String := ""
  fmtp : String := ""
  valid : Bool := false
deriving DecidableEq, Repr

/-- `sdp.Media` (src/sdp/codec.go): the current (list-of-media) shape
with `Type`, `NumPorts`, `Attrs` and `Other`. -/
structure Media where
  type : String := ""
  proto : String := ""
  port : Nat := 0
  numPorts : Int := 0
  addr : String := ""
  direction : String := ""
  codecs : List Codec := []
  ptime : Int := 0
  maxptime : Int := 0
  attrs : List (String × String) := []
  other : List (String × String) := []
deriving DecidableEq, Repr

/-- Modelled from the spec: `sdp.Origin` (its file is not under
`src/`); spec §3 "Origin record" and the parser's
`parseOriginLine` construction give the fields User, ID, Version,
Addr. -/
structure Origin where
  user : String := ""
  id : String := ""
  version : String := ""
  addr : String := ""
deriving DecidableEq, Repr

/-- `sdp.SDP` (part_007).  `Origin *Origin` is an `Option` (the Go
pointer may be nil when no `o=` line was seen). -/
structure SDP where
  origin : Option Origin := none
  addr : String := ""
  media : List Media := []
  session : String := "-"
  time : String := "0 0"
  direction : String := ""
  attrs : List (String × String) := []
  other : List (String × String) := []
deriving DecidableEq, Repr

/-- `sdp.IsKnownMediaType` (part_010): returns the type and whether it
is known; unknown types map to `("", false)`, here `none`. -/
def IsKnownMediaType (name : String) : Option String :=
  if name = "audio" || name = "video" || name = "text" ||
     name = "application" || name = "message" || name = "image"
  then some name else none

/-- `sdp.IsKnownTransportProtocol` (part_010). -/
def IsKnownTransportProtocol (name : String) : Option String :=
  if name = "RTP/AVP" || name = "RTP/AVPF" || name = "RTP/SAVP" ||
     name = "RTP/SAVPF" || name = "TCP/IP" || name = "udp"
  then some name else none

/-- `sdp.isDynamicPT` (src/sdp/codec.go): IANA dynamic payload types. -/
def isDynamicPT (pt : Nat) : Bool :=
  pt ≥ 96

/-- Modelled from the spec: the `StandardCodecs` table (its file is not
under `src/`).  Entries follow spec §3 ("PCMU=0/8000, GSM=3/8000,
G723=4/8000, G722=9/8000, PCMA=8/8000, G729=18/8000, etc.") plus the
H263=34/90000 entry exercised by the sdp tests (part_009).  Table
entries are Go struct literals that set only PT/Name/Ate, so the
unexported `valid` flag keeps its zero value. -/
def StandardCodecs (pt : Nat) : Option Codec :=
  if pt = 0 then some { pt := 0, name := "PCMU", rate := 8000 }
  else if pt = 3 then some { pt := 3, name := "GSM", rate := 8000 }
  else if pt = 4 then some { pt := 4, name := "G723", rate := 8000 }
  else if pt = 8 then some { pt := 8, name := "PCMA", rate := 8000 }
  else if pt = 9 then some { pt := 9, name := "G722", rate := 8000 }
  else if pt = 18 then some { pt := 18, name := "G729", rate := 8000 }
  else if pt = 34 then some { pt := 34, name := "H263", rate := 90000 }
  else none

/-- `sdp.NewCodec` (src/sdp/codec.go). -/
def NewCodec (pt : Nat) : Except String Codec :=
  if isDynamicPT pt then .ok { pt := pt }
  else
    match StandardCodecs pt with
    | some c => .ok c
    | none => .error "unknown iana codec id"

/-- `Codec.IsValid` (src/sdp/codec.go): dynamic PTs need an rtpmap. -/
def Codec.IsValid (codec : Codec) : Bool :=
  if isDynamicPT codec.pt then codec.valid else true

/-- `Codec.addRtpmap` (src/sdp/codec.go).  The Go method mutates the
codec in place and returns an error; the mutations made before a
failing rate parse (Name set, Rate zeroed by the failed `Atoi`
assignment) are preserved, because `Media.addRtpmap` ignores the
returned error.  Result: the updated codec and whether parsing
succeeded. -/
def Codec.addRtpmap (codec : Codec) (s : String) : Codec × Bool :=
  match goSplitAll s '/' with
  | t0 :: t1 :: rest =>
    let c1 := { codec with name := t0 }
    match goAtoi t1 with
    | none => ({ c1 with rate := 0 }, false)
    | some r =>
      let c2 := { c1 with rate := r }
      let c3 := match rest with
        | p :: _ => { c2 with param := p }
        | [] => c2
      ({ c3 with valid := true }, true)
  | _ => (codec, false)

/-- `Codec.addFmtp` (src/sdp/codec.go): always succeeds. -/
def Codec.addFmtp (codec : Codec) (s : String) : Codec :=
  { codec with fmtp := s }

/-- Update the first codec in the list with the given payload type;
`none` when no codec matches (the `for`+`return` search the Go
`Media.addRtpmap`/`addFmtp` methods perform). -/
def updateFirstCodec (pt : Nat) (f : Codec → Codec) :
    List Codec → Option (List Codec)
  | [] => none
  | c :: cs =>
    if c.pt = pt then some (f c :: cs)
    else (updateFirstCodec pt f cs).map (c :: ·)

/-- `Media.addRtpmap` (src/sdp/codec.go).  `tokens[0]`/`tokens[1]`
index without a length check in Go (a panic on short input); here the
missing token becomes an error result. -/
def Media.addRtpmap (media : Media) (line : String) :
    Except String Media :=
  match goFields line with
  | payloadType :: value :: _ =>
    match goParseUint payloadType 255 with
    | none => .error "invalid pt in rtpmap"
    | some pt =>
      match updateFirstCodec pt (fun c => (c.addRtpmap value).1) media.codecs with
      | some cs => .ok { media with codecs := cs }
      | none => .error "codec id in rtpmap not found in media description"
  | _ => .error "panic: rtpmap line with fewer than two fields"

/-- `Media.addFmtp` (src/sdp/codec.go); same indexing caveat as
`Media.addRtpmap`. -/
def Media.addFmtp (media : Media) (line : String) :
    Except String Media :=
  match goFields line with
  | payloadType :: value :: _ =>
    match goParseUint payloadType 255 with
    | none => .error "invalid pt in fmtp"
    | some pt =>
      match updateFirstCodec pt (fun c => c.addFmtp value) media.codecs with
      | some cs => .ok { media with codecs := cs }
      | none => .error "codec id in fmtp not found in media description"
  | _ => .error "panic: fmtp line with fewer than two fields"

/-- `Media.addAttribute` (src/sdp/codec.go).  `lineParts[1]` is indexed
without a check in Go when the recognized key has no `:` (a panic);
here the missing part is the empty string, which the numeric parses
below reject. -/
def Media.addAttribute (media : Media) (line : String) (strict : Bool) :
    Except String Media :=
  let lineParts := goSplitN2 line ':'
  let key := lineParts.headD ""
  let arg := (lineParts.getD 1 "")
  if key = "ptime" then
    match goAtoi arg with
    | some ptime =>
      if ptime > 0 then .ok { media with ptime := ptime }
      else .error "invalid ptime value"
    | none => .error "invalid ptime value"
  else if key = "maxptime" then
    match goAtoi arg with
    | some ptime =>
      if ptime > 0 then .ok { media with maxptime := ptime }
      else .error "invalid maxptime value"
    | none => .error "invalid maxptime value"
  else if key = "rtpmap" then
    match media.addRtpmap arg with
    | .ok m => .ok m
    | .error _ =>
      if strict then .error "invalid rtpmap line for media"
      else .error "ignoring invalid rtpmap line for media"
  else if key = "sendrecv" || key = "sendonly" || key = "recvonly" ||
          key = "inactive" then
    if media.direction ≠ "" then
      if strict then .error "extra media direction line for media"
      else .error "dropping extra media direction line for media"
    else .ok { media with direction := line }
  else if key = "fmtp" then
    match media.addFmtp arg with
    | .ok m => .ok m
    | .error _ =>
      if strict then .error "invalid fmtp line for media"
      else .error "ignoring invalid fmtp line for media"
  else if key = "" then
    .error "invalid attribute for media"
  else
    if lineParts.length = 1 then
      .ok { media with attrs := media.attrs ++ [(key, "")] }
    else
      .ok { media with attrs := media.attrs ++ [(key, arg)] }

/-- `Media.addOther` (src/sdp/codec.go). -/
def Media.addOther (media : Media) (line : String) :
    Except String Media :=
  match goSplitN2 line '=' with
  | [k] =>
    if k.isEmpty then .error "invalid attribute for media"
    else .ok { media with other := media.other ++ [(k, "")] }
  | [k, v] =>
    if k.isEmpty then .error "invalid attribute for media"
    else .ok { media with other := media.other ++ [(k, v)] }
  | _ => .error "unreachable"

/-- `sdp.NewMediaFromLine` (src/sdp/codec.go).  A `0` port means the
media is disabled: the function returns `nil, nil`, here
`.ok none`. -/
def NewMediaFromLine (line : String) (strict : Bool) :
    Except String (Option Media) :=
  let tokens := goFields line
  if tokens.length < 4 then .error "not enough tokens in m= line"
  else
    match tokens with
    | t0 :: t1 :: t2 :: _ =>
      let mt := IsKnownMediaType t0
      if strict && mt.isNone then .error "unsupported media type"
      else
        let portStr := goSplitAll t1 '/'
        match goParseUint (portStr.headD "") 65535 with
        | none => .error "invalid m= port"
        | some port =>
          if port = 0 then .ok none
          else
            let numPortsR : Except String Int :=
              if portStr.length > 1 then
                match goAtoi (portStr.getD 1 "") with
                | some numU =>
                  if 0 ≤ numU ∧ numU ≤ 65535 then .ok numU
                  else .error "invalid m= port range"
                | none => .error "invalid m= port range"
              else .ok 0
            match numPortsR with
            | .error e => .error e
            | .ok portCount =>
              let pr := IsKnownTransportProtocol t2
              if strict && pr.isNone then .error "unsupported media protocol"
              else
                match (tokens.drop 3).mapM (fun pt => goParseUint pt 255) with
                | none => .error "invalid pt in m= line"
                | some pts =>
                  match pts.mapM NewCodec with
                  | .error e => .error e
                  | .ok codecs =>
                    .ok (some { type := mt.getD "", port := port,
                                numPorts := portCount, proto := pr.getD "",
                                codecs := codecs })
    | _ => .error "not enough tokens in m= line"

/-- `SDP.addAttribute` (part_007): session-level attribute lines
(`a=tool` is recognized and dropped — a TODO in the source). -/
def SDP.addAttribute (sdp : SDP) (line : String) (strict : Bool) :
    Except String SDP :=
  let lineParts := goSplitN2 line ':'
  let key := lineParts.headD ""
  if key = "tool" then .ok sdp
  else if key = "sendrecv" || key = "sendonly" || key = "recvonly" ||
          key = "inactive" then
    if sdp.direction ≠ "" then
      if strict then .error "extra media direction line for session"
      else .error "dropping extra media direction line for session"
    else .ok { sdp with direction := line }
  else if key = "" then
    .error "invalid attribute for media"
  else
    if lineParts.length = 1 then
      .ok { sdp with attrs := sdp.attrs ++ [(key, "")] }
    else
      .ok { sdp with attrs := sdp.attrs ++ [(key, lineParts.getD 1 "")] }

/-- `SDP.addOther` (part_007). -/
def SDP.addOther (sdp : SDP) (line : String) : Except String SDP :=
  match goSplitN2 line '=' with
  | [k] =>
    if k.isEmpty then .error "invalid attribute for session"
    else .ok { sdp with other := sdp.other ++ [(k, "")] }
  | [k, v] =>
    if k.isEmpty then .error "invalid attribute for session"
    else .ok { sdp with other := sdp.other ++ [(k, v)] }
  | _ => .error "unreachable"

/-- `sdp.parseConnLine` (part_006): expects `c=IN IP4 <addr>`. -/
def parseConnLine (line : String) : Except String String :=
  let tokens := goFields (line.drop 2)
  match tokens with
  | [t0, t1, t2] =>
    if t0 ≠ "IN" || (t1 ≠ "IP4" && t1 ≠ "IP6") then
      .error "unsupported conn net type"
    else if t2.data.contains '/' then
      .error "multicast address in c= line"
    else .ok t2
  | _ => .error "invalid conn line"

/-- `sdp.parseOriginLine` (part_006): expects
`o=<user> <id> <version> IN IP4 <addr>`. -/
def parseOriginLine (line : String) : Except String Origin :=
  let tokens := goFields (line.drop 2)
  match tokens with
  | [t0, t1, t2, t3, t4, t5] =>
    if t3 ≠ "IN" || (t4 ≠ "IP4" && t4 ≠ "IP6") then
      .error "unsupported origin net type"
    else if t5.data.contains '/' then
      .error "multicast address in o= line"
    else .ok { user := t0, id := t1, version := t2, addr := t5 }
  | _ => .error "invalid origin line"

/-- The mutable locals of the `Parse` loop (part_006): the SDP being
built, the current media (`inMedia` — in Go a pointer aliasing the last
element of `sdp.Media`; here kept separate and flushed into the list),
the `skippingInvalidMedia` flag, and the `foundOrigin` / `foundConn` /
`foundWarnings` flags. -/
structure ParseState where
  sdp : SDP := {}
  cur : Option Media := none
  skipping : Bool := false
  foundOrigin : Bool := false
  foundConn : Bool := false
  foundWarnings : Bool := false
deriving DecidableEq, Repr

/-- Push the current media (if any) into the SDP's media list.  In Go
the media was appended when its `m=` line was read and mutated through
the `inMedia` pointer; flushing at the next `m=` line (and at the end
of the loop) is equivalent. -/
def ParseState.flushCur (st : ParseState) : ParseState :=
  match st.cur with
  | some m =>
    { st with sdp := { st.sdp with media := st.sdp.media ++ [m] }, cur := none }
  | none => st

/-- Record a lenient-mode warning (the Go code chains `fmt.Errorf`
wrappers; only the presence of warnings is observable in the claims, so
the state keeps the flag). -/
def ParseState.warn (st : ParseState) : ParseState :=
  { st with foundWarnings := true }

/-- One iteration of the `for _, line := range lines` loop of
`sdp.Parse` (part_006), in the source's case order
(`s`/`t` before `m`/`c`/`o`/`a`/default). -/
def processLine (strict : Bool) (st : ParseState) (line : String) :
    Except String ParseState :=
  match line.data with
  | [] => .ok st
  | c0 :: c1 :: _ :: _ =>
    if c1 ≠ '=' then
      if strict then .error "invalid line" else .ok st.warn
    else if c0 = 's' then
      .ok { st with sdp := { st.sdp with session := line.drop 2 } }
    else if c0 = 't' then
      .ok { st with sdp := { st.sdp with time := line.drop 2 } }
    else if c0 = 'm' then
      let st := st.flushCur
      match NewMediaFromLine (line.drop 2) strict with
      | .error e =>
        if strict then .error ("invalid sdp: " ++ e)
        else .ok { st.warn with skipping := true }
      | .ok none => .ok { st with skipping := true, cur := none }
      | .ok (some m) => .ok { st with skipping := false, cur := some m }
    else if c0 = 'c' then
      if st.skipping then .ok st
      else
        match st.cur with
        | none =>
          if st.foundConn then
            if strict then .error "extra c= line for session" else .ok st.warn
          else
            match parseConnLine line with
            | .error e => .error e
            | .ok a =>
              .ok { st with sdp := { st.sdp with addr := a }, foundConn := true }
        | some m =>
          if m.addr ≠ "" then
            if strict then .error "extra c= line for media" else .ok st.warn
          else
            match parseConnLine line with
            | .error e => .error e
            | .ok a => .ok { st with cur := some { m with addr := a } }
    else if c0 = 'o' then
      if st.cur.isSome || st.skipping then
        if strict then .error "found o= line after media" else .ok st.warn
      else if st.sdp.origin.isSome then
        if strict then .error "extra o= line for session" else .ok st.warn
      else
        match parseOriginLine line with
        | .error e => .error e
        | .ok o =>
          .ok { st with sdp := { st.sdp with origin := some o },
                        foundOrigin := true }
    else if c0 = 'a' then
      if st.skipping then .ok st
      else
        match st.cur with
        | none =>
          match st.sdp.addAttribute (line.drop 2) strict with
          | .ok sdp => .ok { st with sdp := sdp }
          | .error e =>
            if strict then .error ("unable to add attribute to session: " ++ e)
            else .ok st.warn
        | some m =>
          match m.addAttribute (line.drop 2) strict with
          | .ok m => .ok { st with cur := some m }
          | .error e =>
            if strict then .error ("unable to add attribute to media: " ++ e)
            else .ok st.warn
    else
      if st.skipping then .ok st
      else
        match st.cur with
        | none =>
          match st.sdp.addOther line with
          | .ok sdp => .ok { st with sdp := sdp }
          | .error e =>
            if strict then .error ("unable to add property to session: " ++ e)
            else .ok st.warn
        | some m =>
          match m.addOther line with
          | .ok m => .ok { st with cur := some m }
          | .error e =>
            if strict then .error ("unable to add property to media: " ++ e)
            else .ok st.warn
  | _ =>
    -- `len(line) < 3` (and not empty)
    if strict then .error "invalid line" else .ok st.warn

/-- `sdp.Parse` (part_006).  The result pairs the parsed SDP with the
`foundWarnings` flag: Go returns `(sdp, warning-chain)` when lenient
parsing found anomalies and `(sdp, nil)` otherwise; hard errors return
no SDP. -/
def Parse (s : String) (strict : Bool) : Except String (SDP × Bool) :=
  match s.data with
  | 'v' :: '=' :: '0' :: '\r' :: '\n' :: rest =>
    let lines := (splitCRLF rest).map List.asString
    if lines.length < 2 then .error "too few lines in sdp"
    else
      match lines.foldlM (processLine strict) {} with
      | .error e => .error e
      | .ok st =>
        let st := st.flushCur
        let sdp := st.sdp
        if !st.foundConn && !st.foundOrigin then
          .error "sdp missing mandatory information"
        else if sdp.media.isEmpty then
          .error "no media descriptions found"
        else
          let anyInvalid := sdp.media.any fun m =>
            m.codecs.any fun c => !c.IsValid
          if anyInvalid then
            if strict then .error "missing codec rtpmap for codec"
            else .ok (sdp, true)
          else .ok (sdp, st.foundWarnings)
  | _ => .error "sdp must start with v=0"

/-- An `a=` attribute line as the serializer writes it. -/
def attrLine (p : String × String) : String :=
  if p.2 = "" then "a=" ++ p.1 ++ "\r\n"
  else "a=" ++ p.1 ++ ":" ++ p.2 ++ "\r\n"

/-- `Codec.Append` (src/sdp/codec.go). -/
def Codec.Append (codec : Codec) : String :=
  "a=rtpmap:" ++ Nat.repr codec.pt ++ " " ++ codec.name ++ "/" ++
  goItoa codec.rate ++
  (if codec.param ≠ "" then "/" ++ codec.param else "") ++ "\r\n" ++
  (if codec.fmtp ≠ "" then
    "a=fmtp:" ++ Nat.repr codec.pt ++ " " ++ codec.fmtp ++ "\r\n"
  else "")

/-- `Media.Append` (src/sdp/codec.go).  Note: the method writes `m=`,
the optional media `c=`, the codec rtpmap/fmtp lines, `Attrs`, ptime,
maxptime and the direction — the `Other` list is never written. -/
def Media.Append (media : Media) : String :=
  "m=" ++ media.type ++ " " ++ Nat.repr media.port ++
  (if media.numPorts > 1 then "/" ++ goItoa media.numPorts else "") ++
  " " ++ (if media.proto = "" then "RTP/AVP" else media.proto) ++
  String.join (media.codecs.map fun c => " " ++ Nat.repr c.pt) ++ "\r\n" ++
  (if media.addr ≠ "" then
    (if IsIPv6 media.addr then "c=IN IP6 " else "c=IN IP4 ") ++
    media.addr ++ "\r\n"
  else "") ++
  String.join (media.codecs.map Codec.Append) ++
  String.join (media.attrs.map attrLine) ++
  (if media.ptime > 0 then "a=ptime:" ++ goItoa media.ptime ++ "\r\n" else "") ++
  (if media.maxptime > 0 then
    "a=maxptime:" ++ goItoa media.maxptime ++ "\r\n"
  else "") ++
  (if media.direction ≠ "" then "a=" ++ media.direction ++ "\r\n" else "")

/-- Modelled from the spec: `Origin.Append` (its file is not under
`src/`); spec §4.4 serialization order and the test expectations in
part_009 give `o=<user> <id> <version> IN IP4|IP6 <addr>`. -/
def Origin.Append (o : Origin) : String :=
  "o=" ++ o.user ++ " " ++ o.id ++ " " ++ o.version ++
  (if IsIPv6 o.addr then " IN IP6 " else " IN IP4 ") ++ o.addr ++ "\r\n"

/-- `SDP.Append` / `SDP.String` (part_007).  A nil `Origin` pointer
would crash the Go serializer; the `none` case emits nothing and never
arises for the inputs considered. -/
def SDP.Append (sdp : SDP) : String :=
  "v=0\r\n" ++
  (match sdp.origin with
   | some o => o.Append
   | none => "") ++
  "s=" ++ (if sdp.session = "" then "-" else sdp.session) ++ "\r\n" ++
  (if IsIPv6 sdp.addr then "c=IN IP6 " else "c=IN IP4 ") ++
  (if sdp.addr = "" then "192.0.2.1" else sdp.addr) ++ "\r\n" ++
  "t=" ++ (if sdp.time = "" then "0 0" else sdp.time) ++ "\r\n" ++
  String.join (sdp.attrs.map attrLine) ++
  (if sdp.direction ≠ "" then "a=" ++ sdp.direction ++ "\r\n" else "") ++
  String.join (sdp.other.map fun p => p.1 ++ "=" ++ p.2 ++ "\r\n") ++
  String.join (sdp.media.map Media.Append)

end Sdp

namespace Dialog

open Sip

/-! ## The `sip` message model

The `sip` package itself (message struct, `Via`/`Addr` chains and their
helpers) is not under `src/`; the definitions below are modelled from
the spec (§3 "SIP Message": linked chains become lists whose head is
the topmost element; parameter lists are ordered, and Go's prepend-on-
insert is kept). -/

/-- `Param.Get` / `URIParam.Get`: first parameter with the given name
(Go prepends new parameters, so the head is the most recent). -/
def paramGet (ps : List (String × String)) (name : String) : Option String :=
  (ps.find? fun p => p.1 = name).map (·.2)

/-- Replace the value of the first parameter with the given name (the
in-place `param.Value = ...` mutation). -/
def paramSetFirst (ps : List (String × String)) (name value : String) :
    List (String × String) :=
  match ps with
  | [] => []
  | p :: rest =>
    if p.1 = name then (name, value) :: rest
    else p :: paramSetFirst rest name value

/-- Modelled from the spec: `sip.URI` (spec §3; Request-URI with
host/port and a parameter chain). Port `0` means "not given". -/
structure URI where
  scheme : String := ""
  user : String := ""
  host : String := ""
  port : Nat := 0
  params : List (String × String) := []
deriving DecidableEq, Repr

/-- Modelled from the spec: `sip.Via` (spec §3; host/port plus params
including `branch`, `received`, `rport`). -/
structure Via where
  host : String := ""
  port : Nat := 0
  params : List (String × String) := []
deriving DecidableEq, Repr

/-- Modelled from the spec: `sip.Addr` (spec §3; an address chain
element wrapping a URI).  Chains (`Contact`, `Route`, `RecordRoute`)
are lists with the head first. -/
structure Addr where
  uri : URI := {}
  params : List (String × String) := []
deriving DecidableEq, Repr

/-- `util.Or5060` (not under `src/`; per dialog/receiver.go's comment a
port of `0` defaults to 5060). -/
def or5060 (port : Nat) : Nat :=
  if port = 0 then 5060 else port

/-- `Via.Last` on the chain: the last (bottom-most) element, `none` for
an empty chain (a nil pointer in Go). -/
def viaLast (vs : List Via) : Option Via :=
  vs.getLast?

/-- Modelled from the spec: `Via.CompareHostPort` — §4.2 "the topmost
Via matches ... by host/port"; ports default to 5060; a nil side never
matches. -/
def viaCompareHostPort (a b : Option Via) : Bool :=
  match a, b with
  | some x, some y => x.host = y.host && or5060 x.port = or5060 y.port
  | _, _ => false

/-- Modelled from the spec: `Via.CompareBranch` — §4.2 "matches ... by
`branch` parameter"; the `branch` values (or their common absence) must
agree; a nil side never matches. -/
def viaCompareBranch (a b : Option Via) : Bool :=
  match a, b with
  | some x, some y => paramGet x.params "branch" = paramGet y.params "branch"
  | _, _ => false

/-- `Via.Detach`: a copy of the head hop with its `Next` cleared. -/
def viaDetach (vs : List Via) : List Via :=
  match vs with
  | [] => []
  | v :: _ => [v]

/-- Modelled from the spec: `Addr.CompareHostPort` on the URIs, with
the 5060 port default; a nil side never matches. -/
def addrCompareHostPort (a b : Option Addr) : Bool :=
  match a, b with
  | some x, some y =>
    x.uri.host = y.uri.host && or5060 x.uri.port = or5060 y.uri.port
  | _, _ => false

/-- `sip.Msg` (spec §3).  Nil-able pointers (`Request`, `From`, `To`,
`Contact`) become `Option`; header chains become lists; `CSeq` and
`MaxForwards` are Go `int`, so `Int`.  The polymorphic payload keeps
only its SDP case (`nil`/opaque bytes are `none`). -/
structure Msg where
  method : String := ""
  request : Option URI := none
  status : Nat := 0
  phrase : String := ""
  via : List Via := []
  fromA : Option Addr := none
  toA : Option Addr := none
  contact : Option Addr := none
  callID : String := ""
  cseq : Int := 0
  cseqMethod : String := ""
  route : List Addr := []
  recordRoute : List Addr := []
  maxForwards : Int := 0
  userAgent : String := ""
  allow : String := ""
  authorization : String := ""
  proxyAuthorization : String := ""
  payload : Option Sdp.SDP := none
deriving DecidableEq, Repr

/-- `Msg.IsResponse`: a message with a status code is a response. -/
def Msg.IsResponse (m : Msg) : Bool :=
  m.status > 0

/-- The `sip.Status*` constants used by the dialog code. -/
def StatusTrying : Nat := 100
def StatusRinging : Nat := 180
def StatusSessionProgress : Nat := 183
def StatusOK : Nat := 200
def StatusMovedPermanently : Nat := 301
def StatusMovedTemporarily : Nat := 302
def StatusMethodNotAllowed : Nat := 405
def StatusCallTransactionDoesNotExist : Nat := 481
def StatusTooManyHops : Nat := 483
def StatusInternalServerError : Nat := 500
def StatusServiceUnavailable : Nat := 503
def StatusVersionNotSupported : Nat := 505

/-- Modelled from the spec: `sip.Phrase` for the statuses the dialog
layer emits. -/
def Phrase (status : Nat) : String :=
  if status = 100 then "Trying"
  else if status = 180 then "Ringing"
  else if status = 200 then "OK"
  else if status = 405 then "Method Not Allowed"
  else if status = 481 then "Call/Transaction Does Not Exist"
  else if status = 483 then "Too Many Hops"
  else if status = 500 then "Internal Server Error"
  else if status = 503 then "Service Unavailable"
  else if status = 505 then "Version Not Supported"
  else ""

/-- The `dialog.Manager` (src/dialog/manager.go) restricted to the
fields the verified operations read.  Random generators (`util`
package) and DNS results (`net` package) are not under `src/` /
not modellable, so they appear as abstract oracle fields
("Modelled from the spec": collision-resistant generators, resolver
lookups). -/
structure Manager where
  userAgent : String := "sipmanager/1.0"
  maxResends : Nat := 2
  allowReinvite : Bool := false
  timestampTagging : Bool := false
  /-- `proxyAddress`: when set, every outbound packet goes to it. -/
  proxyAddress : Option (String × Nat) := none
  /-- `m.PublicAddress().String()` — fixed for a running manager. -/
  publicHost : String := "192.0.2.50"
  /-- `m.PublicPort()` — fixed for a running manager. -/
  publicPort : Nat := 5060
  /-- the manager's pre-built `m.via` template -/
  via : Via := {}
  /-- the manager's pre-built `m.contact` template -/
  contact : Addr := {}
  genBranch : String := "z9hG4bK-b"
  genTag : String := "t"
  genCallID : String := "c"
  genCSeq : Int := 1
  genOriginID : String := "o"
  genTimestamp : String := "0"
  /-- `Manager.RouteAddress` (part_005) performs `net.LookupSRV` /
  `net.ResolveUDPAddr`; modelled as an oracle from
  `(host, port, wantSRV)` to the fallback address chain
  (`none` = resolution error). -/
  resolve : String → Nat → Bool → Option (List String) :=
    fun h p _ => some [h ++ ":" ++ Nat.repr (or5060 p)]
  /-- `net.ResolveUDPAddr` inside `Send`; modelled as an oracle
  (`none` = resolution error). -/
  resolveUDP : String → Nat → Option (String × Nat) :=
    fun h p => some (h, p)

/-- `Manager.PopulateMessage` (part_005): fill the missing fields of an
outbound request; responses are left untouched.  Go dereferences a nil
`msg.Via`/`msg.From` when both the message and the passed template are
nil; those updates are skipped here (the manager templates are always
non-nil in `Send`). -/
def PopulateMessage (m : Manager) (via : Option Via) (contact : Option Addr)
    (msg : Msg) : Msg :=
  if msg.IsResponse then msg
  else
    -- the source performs the defaults as sequential in-place updates;
    -- they are gathered into one record update here, keeping the data
    -- dependencies (From is built from the already-defaulted Contact,
    -- the branch is added to the already-defaulted Via chain)
    let via1 := if msg.via.isEmpty then (via.map fun v => [v]).getD []
      else msg.via
    let contact1 := if msg.contact.isNone then contact else msg.contact
    let to1 := if msg.toA.isNone then some { uri := msg.request.getD {} }
      else msg.toA
    let from1 := if msg.fromA.isNone then
        contact1.map fun c => { c with uri := { c.uri with params := [] } }
      else msg.fromA
    let via2 :=
      match via1 with
      | v :: rest =>
        if (paramGet v.params "branch").isNone then
          { v with params := ("branch", m.genBranch) :: v.params } :: rest
        else via1
      | [] => via1
    let from2 :=
      match from1 with
      | some f =>
        if (paramGet f.params "tag").isNone then
          some { f with params := ("tag", m.genTag) :: f.params }
        else from1
      | none => from1
    { msg with
      via := via2
      contact := contact1
      toA := to1
      fromA := from2
      callID := if msg.callID = "" then m.genCallID else msg.callID
      cseq := if msg.cseq = 0 then m.genCSeq else msg.cseq
      cseqMethod := if msg.cseqMethod = "" then msg.method else msg.cseqMethod
      maxForwards := if msg.maxForwards = 0 then 70 else msg.maxForwards
      userAgent := if msg.userAgent = "" then m.userAgent else msg.userAgent }

/-- `dialog.RouteMessage` (part_005): select the next hop and strip the
local Via / Route hop; returns `(host, port, updated message)`.  The
spots where Go would dereference a nil pointer (empty Via chain on a
response, nil Request-URI on a request) become errors here; they are
unreachable for the messages the dialog sends. -/
def RouteMessage (via : Option Via) (contact : Option Addr) (msg : Msg) :
    Except String (String × Nat × Msg) :=
  if msg.IsResponse then
    let vias := if viaCompareHostPort via msg.via.head? then msg.via.tail
      else msg.via
    match vias.head? with
    | none => .error "panic: response with no Via"
    | some v =>
      let host := v.host
      let port := v.port
      let host := (paramGet v.params "received").getD host
      match paramGet v.params "rport" with
      | some rv =>
        if rv.length > 0 then
          match goAtoi rv with
          | none => .error "invalid rport value"
          | some i => .ok (host, (i % 65536).toNat, { msg with via := vias })
        else .ok (host, port, { msg with via := vias })
      | none => .ok (host, port, { msg with via := vias })
  else
    let routes := if addrCompareHostPort contact msg.route.head? then
        msg.route.tail
      else msg.route
    match routes with
    | r :: rest =>
      if msg.method = "REGISTER" then .error "Don't route REGISTER requests"
      else if (paramGet r.uri.params "lr").isSome then
        .ok (r.uri.host, r.uri.port, { msg with route := routes })
      else
        -- RFC 3261 §16.12.1.2 strict-routing swap: the old Request-URI
        -- (a possibly nil pointer, kept in Go) moves to the chain tail
        .ok (r.uri.host, r.uri.port,
             { msg with request := some r.uri,
                        route := rest ++ [{ uri := msg.request.getD {} }] })
    | [] =>
      match msg.request with
      | some u => .ok (u.host, u.port, { msg with route := routes })
      | none => .error "panic: request with no Request-URI"

/-- `Manager.addTimestamp` (part_004): optional `usi` Via tag.  Go
dereferences a nil `msg.Via`; an empty chain is left unchanged here
(never the case for populated messages). -/
def addTimestamp (m : Manager) (msg : Msg) : Msg :=
  if m.timestampTagging then
    match msg.via with
    | v :: rest =>
      { msg with via := { v with params := ("usi", m.genTimestamp) :: v.params } :: rest }
    | [] => msg
  else msg

/-- `dialog.ErrLocalLoopDetected` (part_005). -/
def ErrLocalLoopDetected : String :=
  "local loop detected - maxForwards exceeded"

/-- The destination-selection block of `Manager.Send` (part_005): the
proxy address if configured, else `RouteMessage` followed by
`net.ResolveUDPAddr` (the manager's resolver oracle).  The message
comes back because `RouteMessage` may strip its Via/Route head. -/
def sendDest (m : Manager) (msg : Msg) :
    Except String ((String × Nat) × Msg) :=
  match m.proxyAddress with
  | some d => .ok (d, msg)
  | none =>
    match RouteMessage (some m.via) (some m.contact) msg with
    | .error e => .error e
    | .ok (host, port, msg) =>
      match m.resolveUDP host port with
      | some a => .ok (a, msg)
      | none => .error "cannot resolve destination address"

/-- `Manager.Send` (part_005, current `slog` revision): populate,
select the destination (proxy, else route + resolve), decrement
MaxForwards with the local-loop check, and emit.  `.ok` carries the
message as written to the wire together with its destination; on any
`.error` nothing reaches the wire. -/
def Send (m : Manager) (msg : Msg) :
    Except String (Msg × String × Nat) :=
  let msg := PopulateMessage m (some m.via) (some m.contact) msg
  match sendDest m msg with
  | .error e => .error e
  | .ok (dest, msg) =>
    if msg.maxForwards > 0 then
      let msg := { msg with maxForwards := msg.maxForwards - 1 }
      if msg.maxForwards = 0 then
        .error ErrLocalLoopDetected
      else
        let msg := addTimestamp m msg
        .ok (msg, dest.1, dest.2)
    else
      let msg := addTimestamp m msg
      .ok (msg, dest.1, dest.2)

/-- `GosipAllow` / `GosipAllowWithReinvite` (part_002). -/
def GosipAllow : String := "ACK, CANCEL, BYE, OPTIONS"
def GosipAllowWithReinvite : String := "INVITE, ACK, CANCEL, BYE, OPTIONS"

/-- `Manager.NewResponse` (part_002). -/
def NewResponse (m : Manager) (msg : Msg) (status : Nat) : Msg :=
  { status := status
    phrase := Phrase status
    via := msg.via
    fromA := msg.fromA
    toA := msg.toA
    callID := msg.callID
    cseq := msg.cseq
    cseqMethod := msg.cseqMethod
    recordRoute := msg.recordRoute
    userAgent := m.userAgent
    allow := if m.allowReinvite then GosipAllowWithReinvite else GosipAllow }

/-- `Manager.NewAck` (part_002): ACK for a 2xx response to an INVITE.
Go dereferences `msg.Contact` (nil would panic); the `Option` is mapped
through. -/
def NewAck (m : Manager) (msg invite : Msg) : Msg :=
  { method := "ACK"
    request := msg.contact.map Addr.uri
    fromA := msg.fromA
    toA := msg.toA
    via := viaDetach msg.via
    callID := msg.callID
    cseq := msg.cseq
    cseqMethod := "ACK"
    route := msg.recordRoute.reverse
    authorization := invite.authorization
    proxyAuthorization := invite.proxyAuthorization
    userAgent := m.userAgent }

/-- `Manager.NewCancel` (part_002) (the non-INVITE case only logs). -/
def NewCancel (invite : Msg) : Msg :=
  { method := "CANCEL"
    request := invite.request
    via := invite.via
    fromA := invite.fromA
    toA := invite.toA
    callID := invite.callID
    cseq := invite.cseq
    cseqMethod := "CANCEL"
    route := invite.route }

/-- `Manager.NewBye` (part_002).  Go increments the dialog's `lSeq`
through a pointer (or a fresh copy of `invite.CSeq` when nil); the
incremented value is returned alongside the message.  Go dereferences
`remote.Contact`; the `Option` is mapped through. -/
def NewBye (invite remote : Msg) (lSeq : Option Int) : Msg × Int :=
  let l := (lSeq.getD invite.cseq) + 1
  ({ method := "BYE"
     request := remote.contact.map Addr.uri
     fromA := invite.fromA
     toA := remote.toA
     callID := invite.callID
     cseq := l
     cseqMethod := "BYE"
     route := remote.recordRoute.reverse }, l)

/-- `dialog.ResponseMatch` (part_002): is `rsp` a response to `req`?
Note the Via comparison takes the last (bottom-most) Via of the
response against the topmost Via of the request. -/
def ResponseMatch (req rsp : Msg) : Bool :=
  rsp.IsResponse && rsp.cseq = req.cseq && rsp.cseqMethod = req.method &&
  viaCompareHostPort (viaLast rsp.via) req.via.head? &&
  viaCompareBranch (viaLast rsp.via) req.via.head?

/-- `dialog.AckMatch` (part_002): Via branch deliberately not
enforced. -/
def AckMatch (msg ack : Msg) : Bool :=
  !ack.IsResponse && ack.method = "ACK" && ack.cseq = msg.cseq &&
  ack.cseqMethod = "ACK" &&
  viaCompareHostPort (viaLast ack.via) msg.via.head?

/-! ## The dialog state machine (part_001)

The mutable `dialogState` record becomes explicit state passing; the
channel writes (`errChan`, `stateChan`, `peerChan`) and the packets the
manager accepts for the wire are collected in an effect record; each
handler returns the Go `bool` ("keep the dialog running"). -/

/-- The dialog `Status` constants (part_001): `iota + 1`, so the zero
value of the `state` field (before the first transition) is `0`.
Renamed `State*` here because the `sip` package's response-code
`Status*` constants above share the Go names. -/
def StateProceeding : Nat := 1
def StateRinging : Nat := 2
def StateAnswered : Nat := 3
def StateHangup : Nat := 4
def StateFailed : Nat := 5

/-- The observable effects of one handler run: packets written to the
wire (successful `manager.Send` calls), `errChan` events, `stateChan`
events and `peerChan` SDP payloads. -/
structure Eff where
  sent : List Msg := []
  errs : List String := []
  states : List Nat := []
  peers : List Sdp.SDP := []
deriving DecidableEq, Repr

/-- Sequential composition of effects. -/
def Eff.seq (a b : Eff) : Eff :=
  { sent := a.sent ++ b.sent
    errs := a.errs ++ b.errs
    states := a.states ++ b.states
    peers := a.peers ++ b.peers }

/-- `dialogState` (part_001).  Pointers become `Option`s; the
`requestTimer`/`responseTimer` channels are modelled by whether they
are armed (non-nil); the route chain is a list (`[]` = nil = exhausted).
`requestIsInvite` models the Go pointer identity test
`dls.request == dls.invite` (the request pointer is only ever set to
`dls.invite` or to a freshly built BYE).  `routeSends` is a ghost
counter of wire transmissions of the current request since the current
route was selected; it appears in no branch condition. -/
structure DialogState where
  state : Nat := 0
  callID : String := ""
  dest : String := ""
  addr : String := ""
  routes : List String := []
  invite : Msg := {}
  remote : Option Msg := none
  request : Option Msg := none
  requestIsInvite : Bool := false
  requestResends : Nat := 0
  requestTimer : Bool := false
  response : Option Msg := none
  responseResends : Nat := 0
  responseTimer : Bool := false
  lSeq : Int := 0
  rSeq : Int := 0
  routeSends : Nat := 0
deriving DecidableEq, Repr

/-- `dialogState.transition` (part_001): set the state and emit it on
the state channel — no monotonicity guard exists in the source. -/
def transition (dls : DialogState) (s : Nat) : DialogState × Eff :=
  ({ dls with state := s }, { states := [s] })

/-- `dialogState.checkSDP` (part_001): emit an SDP payload to the
application. -/
def checkSDP (msg : Msg) : Eff :=
  { peers := msg.payload.toList }

/-- `dialogState.connect` (part_001): a stub that always succeeds
("we only support using a proxy"). -/
def connect (_ : DialogState) : Bool :=
  true

/-- `dialogState.populate` (part_001): local Via/Contact and SDP
address defaults, then `PopulateMessage(nil, nil, msg)`.  Go writes the
branch value in place when the parameter exists.  A nil `SDP.Origin`
would crash the Go code (`ms.Origin.Addr`); `none` is left unchanged
here (INVITEs built by `sdp.New` always carry an origin). -/
def dialogPopulate (m : Manager) (msg : Msg) : Msg :=
  let lHost := m.publicHost
  let lPort := m.publicPort
  -- the sequential in-place updates of the source are gathered into
  -- one record update before the final `PopulateMessage(nil, nil, msg)`
  let via1 := if msg.via.isEmpty then [({ host := lHost } : Via)]
    else msg.via
  let via2 :=
    match via1 with
    | v :: rest =>
      let v := { v with port := lPort }
      let v :=
        if (paramGet v.params "branch").isSome then
          { v with params := paramSetFirst v.params "branch" m.genBranch }
        else
          { v with params := ("branch", m.genBranch) :: v.params }
      v :: rest
    | [] => via1
  let contact1 := if msg.contact.isNone then
      some ({ uri := { scheme := "sip", host := lHost } } : Addr)
    else msg.contact
  let contact2 :=
    match contact1 with
    | some c =>
      let u := { c.uri with port := lPort }
      let u :=
        if (paramGet u.params "transport").isNone then
          { u with params := ("transport", "udp") :: u.params }
        else u
      some { c with uri := u }
    | none => contact1
  let payload1 :=
    if msg.method = "INVITE" then
      match msg.payload with
      | some ms =>
        let ms := if ms.addr = "" then { ms with addr := lHost } else ms
        let ms :=
          match ms.origin with
          | some o =>
            let o := if o.addr = "" then { o with addr := lHost } else o
            let o := if o.id = "" then { o with id := m.genOriginID } else o
            { ms with origin := some o }
          | none => ms
        some ms
      | none => msg.payload
    else msg.payload
  PopulateMessage m none none
    { msg with via := via2, contact := contact2, payload := payload1 }

/-- `dialogState.popRoute` (part_001): select the head of the route
list, populate and transmit the current request, resetting the CSeq
state when the dialog is not yet answered and the resend counter
always.  The `connect` retry loop consumes one route per recursion
(presently dead code: `connect` is constantly true). -/
def popRoute (m : Manager) (dls : DialogState) :
    DialogState × Eff × Bool :=
  match hr : dls.routes with
  | [] => (dls, { errs := ["Failed to contact: " ++ dls.dest] }, false)
  | a :: rest =>
    if connect { dls with addr := a, routes := rest } then
      let dls := { dls with addr := a, routes := rest }
      match dls.request with
      | none => (dls, { errs := ["panic: popRoute with no request"] }, false)
      | some req =>
        let req := dialogPopulate m req
        let dls := { dls with request := some req }
        let dls := if dls.state < StateAnswered then
            { dls with rSeq := 0, remote := none, lSeq := req.cseq }
          else dls
        let dls := { dls with requestResends := 0, requestTimer := true,
                              routeSends := 0 }
        match Send m req with
        | .error _ => (dls, {}, false)
        | .ok (sent, _, _) =>
          ({ dls with request := some sent, routeSends := 1 },
           { sent := [sent] }, true)
    else popRoute m { dls with addr := a, routes := rest }
termination_by dls.routes.length
decreasing_by simp_all [hr]

/-- `dialogState.sendRequest` (part_001): route the request, resolve
its fallback address list and pop the first route.  `isInvite` records
whether the request pointer is `dls.invite`. -/
def sendRequest (m : Manager) (dls : DialogState) (request : Msg)
    (isInvite : Bool) : DialogState × Eff × Bool :=
  match RouteMessage none none request with
  | .error e => (dls, { errs := [e] }, false)
  | .ok (host, port, request) =>
    let wantSRV := dls.state < StateAnswered
    match m.resolve host port wantSRV with
    | none => (dls, { errs := ["unable to resolve route address"] }, false)
    | some routes =>
      popRoute m { dls with request := some request,
                            requestIsInvite := isInvite,
                            routes := routes, dest := host }

/-- `dialogState.resendRequest` (part_001): on a request-timer fire,
retransmit while `requestResends < maxResends`, else fail over to the
next route. -/
def resendRequest (m : Manager) (dls : DialogState) :
    DialogState × Eff × Bool :=
  match dls.request with
  | none => (dls, {}, true)
  | some req =>
    if !dls.requestTimer then (dls, {}, true)
    else if dls.requestResends < m.maxResends then
      match Send m req with
      | .error _ => (dls, {}, false)
      | .ok (sent, _, _) =>
        ({ dls with request := some sent,
                    requestResends := dls.requestResends + 1,
                    requestTimer := true,
                    routeSends := dls.routeSends + 1 },
         { sent := [sent] }, true)
    else
      popRoute m dls

/-- `dialogState.sendResponse` (part_001): reliably send a 200 to an
INVITE, arming the response resend timer. -/
def sendResponse (m : Manager) (dls : DialogState) (msg : Msg) :
    DialogState × Eff × Bool :=
  let dls := { dls with response := some msg, responseResends := 0,
                        responseTimer := true }
  match Send m msg with
  | .error _ => (dls, {}, false)
  | .ok (sent, _, _) =>
    ({ dls with response := some sent }, { sent := [sent] }, true)

/-- `dialogState.resendResponse` (part_001). -/
def resendResponse (m : Manager) (dls : DialogState) :
    DialogState × Eff × Bool :=
  match dls.response with
  | none => (dls, {}, true)
  | some rsp =>
    if !dls.responseTimer then (dls, {}, true)
    else if dls.responseResends < m.maxResends then
      match Send m rsp with
      | .error _ => (dls, {}, false)
      | .ok (sent, _, _) =>
        ({ dls with response := some sent,
                    responseResends := dls.responseResends + 1,
                    responseTimer := true },
         { sent := [sent] }, true)
    else
      popRoute m dls

/-- An error event for a final response (`sip.ResponseError`). -/
def responseError (msg : Msg) : String :=
  "sip response error: status " ++ Nat.repr msg.status

/-- `dialogState.handleResponse` (part_001).  A response that does not
match the current request is logged and ignored.  A matching final
response to an INVITE is ACKed; the SDP of a `<= 200` response is
surfaced; then the status switch runs.  The Go code calls
`ResponseMatch` through the (never nil in a running dialog) request
pointer; a `none` request is treated as no match. -/
def handleResponse (m : Manager) (dls : DialogState) (msg : Msg) :
    DialogState × Eff × Bool :=
  match dls.request with
  | none => (dls, {}, true)
  | some req =>
    if !ResponseMatch req msg then (dls, {}, true)
    else
      let ackStep : Except (DialogState × Eff × Bool) Eff :=
        if msg.status ≥ StatusOK ∧ req.method = "INVITE" then
          match msg.contact with
          | none =>
            .error (dls, { errs := ["Remote UA sent >=200 response w/o Contact"] },
                    false)
          | some _ =>
            match Send m (NewAck m msg req) with
            | .error e =>
              .error (dls, { errs := ["unable to send ACK message: " ++ e] },
                      false)
            | .ok (ack, _, _) => .ok { sent := [ack] }
        else .ok {}
      match ackStep with
      | .error r => r
      | .ok eff1 =>
        let eff := eff1.seq (if msg.status ≤ StatusOK then checkSDP msg else {})
        let dls := { dls with routes := [], requestTimer := false }
        if msg.status = StatusTrying then
          let (dls, e) := transition dls StateProceeding
          (dls, eff.seq e, true)
        else if msg.status = StatusRinging ∨ msg.status = StatusSessionProgress then
          let (dls, e) := transition dls StateRinging
          (dls, eff.seq e, true)
        else if msg.status = StatusOK then
          if msg.cseqMethod = "INVITE" then
            let (dls, e) := if dls.remote.isNone then
                transition dls StateAnswered
              else (dls, {})
            (({ dls with remote := some msg } : DialogState), eff.seq e, true)
          else if msg.cseqMethod = "BYE" ∨ msg.cseqMethod = "CANCEL" then
            let (dls, e) := transition dls StateHangup
            (dls, eff.seq e, false)
          else (dls, eff, true)
        else if msg.status = StatusServiceUnavailable then
          if dls.requestIsInvite then
            let r := popRoute m dls
            (r.1, eff.seq r.2.1, r.2.2)
          else (dls, eff.seq { errs := [responseError msg] }, false)
        else if msg.status = StatusMovedPermanently ∨
                msg.status = StatusMovedTemporarily then
          match msg.contact with
          | some c =>
            let invite := { dls.invite with request := some c.uri, route := [] }
            let r := sendRequest m { dls with invite := invite } invite true
            (r.1, eff.seq r.2.1, r.2.2)
          | none => (dls, eff.seq { errs := ["panic: redirect without Contact"] },
                     false)
        else
          if msg.status > StatusOK then
            (dls, eff.seq { errs := [responseError msg] }, false)
          else (dls, eff, true)

/-- `dialogState.handleRequest` (part_001): loop guard (483), the rSeq
ordering check (500 for out-of-order), then the method switch. -/
def handleRequest (m : Manager) (dls : DialogState) (msg : Msg) :
    DialogState × Eff × Bool :=
  if msg.maxForwards ≤ 0 then
    match Send m (NewResponse m msg StatusTooManyHops) with
    | .error _ => (dls, {}, false)
    | .ok (rsp, _, _) =>
      (dls, { sent := [rsp], errs := ["Remote loop detected"] }, false)
  else
    let afterSeq : Except (DialogState × Eff × Bool) DialogState :=
      if dls.rSeq = 0 then .ok { dls with rSeq := msg.cseq }
      else if msg.cseq < dls.rSeq then
        match Send m (NewResponse m msg StatusInternalServerError) with
        | .error _ => .error (dls, {}, false)
        | .ok (rsp, _, _) => .error (dls, { sent := [rsp] }, true)
      else .ok { dls with rSeq := msg.cseq }
    match afterSeq with
    | .error r => r
    | .ok dls =>
      if msg.method = "BYE" then
        match Send m (NewResponse m msg StatusOK) with
        | .error _ => (dls, {}, false)
        | .ok (rsp, _, _) =>
          let (dls, e) := transition dls StateHangup
          (dls, Eff.seq { sent := [rsp] } e, false)
      else if msg.method = "OPTIONS" then
        match Send m (NewResponse m msg StatusOK) with
        | .error _ => (dls, {}, false)
        | .ok (rsp, _, _) => (dls, { sent := [rsp] }, true)
      else if msg.method = "INVITE" then
        let dls := { dls with remote := some msg }
        let eff := checkSDP msg
        let r := sendResponse m dls (NewResponse m msg StatusOK)
        (r.1, eff.seq r.2.1, r.2.2)
      else if msg.method = "ACK" then
        ({ dls with response := none, responseTimer := false }, {}, true)
      else
        match Send m (NewResponse m msg StatusMethodNotAllowed) with
        | .error _ => (dls, {}, false)
        | .ok (rsp, _, _) => (dls, { sent := [rsp] }, true)

/-- `dialogState.hangup` (part_001): CANCEL before answer, BYE after
answer, no-op when already hung up, forced transition before the first
provisional response.  In the Answered case the Go code would crash on
a nil `remote` (never the case once Answered). -/
def hangup (m : Manager) (dls : DialogState) :
    DialogState × Eff × Bool :=
  if dls.state = StateProceeding ∨ dls.state = StateRinging then
    match Send m (NewCancel dls.invite) with
    | .error _ => (dls, {}, false)
    | .ok (c, _, _) => (dls, { sent := [c] }, true)
  else if dls.state = StateAnswered then
    match dls.remote with
    | none => (dls, { errs := ["panic: hangup with no remote"] }, false)
    | some r =>
      let br := NewBye dls.invite r (some dls.lSeq)
      sendRequest m { dls with lSeq := br.2 } br.1 false
  else if dls.state = StateHangup then
    (dls, {}, true)
  else
    let (dls, e) := transition dls StateHangup
    (dls, e, false)

/-- The events a dialog handles: an incoming message dispatched by the
receive task (responses to `handleResponse`, requests to
`handleRequest`, as in `HandleIncomingMessage`, part_004), the two
resend timers, and the hangup trigger (`dls.run`, part_001). -/
inductive Event where
  | recv (msg : Msg)
  | requestTimerFire
  | responseTimerFire
  | hangupSignal
deriving DecidableEq, Repr

/-- One handled event of a dialog. -/
def step (m : Manager) (dls : DialogState) : Event → DialogState × Eff × Bool
  | .recv msg =>
    if msg.IsResponse then handleResponse m dls msg
    else handleRequest m dls msg
  | .requestTimerFire => resendRequest m dls
  | .responseTimerFire => resendResponse m dls
  | .hangupSignal => hangup m dls

/-- The public `Dialog` handle (part_001): the `hangupDone` latch, the
one-shot hangup channel (whether it carries a pending signal and
whether it has been closed), and whether a channel operation
panicked. -/
structure DialogHandle where
  hangupDone : Bool := false
  chanClosed : Bool := false
  signals : Nat := 0
  panicked : Bool := false
deriving DecidableEq, Repr

/-- `Dialog.Hangup` (part_001): a no-op after the first call; the first
call sends the one-shot signal and closes the channel.  Sending on or
closing an already-closed channel would panic. -/
def DialogHandle.Hangup (d : DialogHandle) : DialogHandle :=
  if d.hangupDone then d
  else
    let d := { d with hangupDone := true }
    if d.chanClosed then { d with panicked := true }
    else { d with signals := d.signals + 1, chanClosed := true }

end Dialog


/-! ## Claim fixtures and spec-worded predicates -/

/-- Input for the C1 round-trip evaluation: a strict-mode-valid SDP
whose media section carries an unrecognized non-attribute line
(`b=AS:64`), which the parser stores in `Media.Other`. -/
def c1Input : String :=
  "v=0\r\no=root 31589 31589 IN IP4 10.0.0.38\r\nc=IN IP4 10.0.0.38\r\nt=0 0\r\nm=audio 30126 RTP/AVP 0\r\na=rtpmap:0 PCMU/8000\r\nb=AS:64\r\n"

/-- The first strict parse of `c1Input`, kept only when it succeeded
with no warnings. -/
def c1First : Option Sdp.SDP :=
  match Sdp.Parse c1Input true with
  | .ok (s, false) => some s
  | _ => none

/-- The strict re-parse of the serialization of the first parse. -/
def c1Second : Option Sdp.SDP :=
  match c1First with
  | some s =>
    match Sdp.Parse s.Append true with
    | .ok (s2, false) => some s2
    | _ => none
  | none => none

/-- An SDP text with an `o=` line but no session-level `c=` line. -/
def c8NoConn : String :=
  "v=0\r\no=root 31589 31589 IN IP4 10.0.0.38\r\nt=0 0\r\nm=audio 30126 RTP/AVP 0\r\na=rtpmap:0 PCMU/8000\r\n"

/-- An SDP text with a session-level `c=` line but no `o=` line. -/
def c8NoOrigin : String :=
  "v=0\r\nc=IN IP4 10.0.0.38\r\nt=0 0\r\nm=audio 30126 RTP/AVP 0\r\na=rtpmap:0 PCMU/8000\r\n"

/-- An SDP text with neither an `o=` line nor a `c=` line. -/
def c8NoBoth : String :=
  "v=0\r\nt=0 0\r\nm=audio 30126 RTP/AVP 0\r\na=rtpmap:0 PCMU/8000\r\n"

/-- The kind test used by the C2 statement: is this event the handling
of an incoming response? -/
def eventIsResponse : Dialog.Event → Bool
  | .recv msg => msg.IsResponse
  | _ => false

/-- Repeated calls of `Dialog.Hangup` by the application. -/
def iterateHangup : Nat → Dialog.DialogHandle → Dialog.DialogHandle
  | 0, d => d
  | n + 1, d => iterateHangup n d.Hangup

/-- The response-matching predicate exactly as claim C5 words it: the
TOPMOST Via of the response must match the request's Via by host/port
and by branch. -/
@[reducible] def ResponseMatchSpecTopmost (req rsp : Dialog.Msg) : Prop :=
  rsp.IsResponse = true ∧ rsp.cseq = req.cseq ∧
  rsp.cseqMethod = req.method ∧
  Dialog.viaCompareHostPort rsp.via.head? req.via.head? = true ∧
  Dialog.viaCompareBranch rsp.via.head? req.via.head? = true

/-- The amended matching predicate: the response Via compared is the
last (bottom-most) one, as `rsp.Via.Last()` selects. -/
@[reducible] def ResponseMatchSpecLast (req rsp : Dialog.Msg) : Prop :=
  rsp.IsResponse = true ∧ rsp.cseq = req.cseq ∧
  rsp.cseqMethod = req.method ∧
  Dialog.viaCompareHostPort rsp.via.getLast? req.via.head? = true ∧
  Dialog.viaCompareBranch rsp.via.getLast? req.via.head? = true

/-- A concrete Via used by the dialog fixtures. -/
def viaA : Dialog.Via :=
  { host := "192.0.2.50", port := 5060, params := [("branch", "z9hG4bK-1")] }

def reqC5 : Dialog.Msg := { method := "INVITE", via := [viaA], cseq := 1 }

def rspC5 : Dialog.Msg :=
  { status := 200, cseq := 1, cseqMethod := "INVITE",
    via := [viaA, { host := "other.example", port := 5060 }] }

/-- A manager in outbound-proxy mode (every send goes to the proxy). -/
def mgrProxy : Dialog.Manager := { proxyAddress := some ("10.0.0.1", 5060) }

def mgrDirect : Dialog.Manager := {}

def inviteA : Dialog.Msg :=
  { method := "INVITE", request := some { scheme := "sip", host := "10.0.0.99" },
    via := [viaA], cseq := 7, cseqMethod := "INVITE", callID := "x",
    maxForwards := 70,
    fromA := some { uri := { host := "192.0.2.50" }, params := [("tag", "t1")] },
    toA := some { uri := { host := "10.0.0.99" } },
    contact := some { uri := { host := "192.0.2.50" } } }

def rsp180A : Dialog.Msg :=
  { status := 180, via := [viaA], cseq := 7, cseqMethod := "INVITE" }

def rsp200A : Dialog.Msg :=
  { status := 200, via := [viaA], cseq := 7, cseqMethod := "INVITE",
    contact := some { uri := { host := "10.0.0.99" } } }

def dlsAnsweredA : Dialog.DialogState :=
  { state := 3, invite := inviteA, request := some inviteA,
    requestIsInvite := true, remote := some rsp200A, lSeq := 7, rSeq := 0 }

def dlsSeq5A : Dialog.DialogState :=
  { state := 3, invite := inviteA, request := some inviteA,
    requestIsInvite := true, remote := some rsp200A, lSeq := 7, rSeq := 5 }

def byeLowA : Dialog.Msg :=
  { method := "BYE", cseq := 3, cseqMethod := "BYE", maxForwards := 70,
    via := [viaA], callID := "x" }

def byeLow0A : Dialog.Msg := { byeLowA with maxForwards := 0 }

/-- Projection of a `Send` outcome onto its error string, if any. -/
def sendErrorOf : Except String (Dialog.Msg × String × Nat) → Option String
  | .error e => some e
  | .ok _ => none

def regC7 : Dialog.Msg :=
  { method := "REGISTER", request := some { host := "a.example" },
    route := [{ uri := { host := "p.example", port := 5060 } }],
    maxForwards := 1, via := [viaA] }

def dlsResendA : Dialog.DialogState :=
  { state := 1, invite := inviteA, request := some inviteA,
    requestIsInvite := true, requestTimer := true, requestResends := 2,
    routeSends := 3, routes := ["192.0.2.77:5060"], dest := "10.0.0.99" }

def ackContactA : Dialog.Addr := { uri := { host := "10.0.0.99" } }

namespace Dialog

/-- The inductive invariant of claim C4: the resend counter never
exceeds `maxResends`, and the transmissions on the currently selected
route never exceed the resend counter plus the initial send. -/
def ResendInv (m : Manager) (dls : DialogState) : Prop :=
  dls.requestResends ≤ m.maxResends ∧
  dls.routeSends ≤ dls.requestResends + 1

end Dialog

/-! ## Helper lemmas about the dialog send path -/

namespace Dialog

theorem popRoute_state (m : Manager) (dls : DialogState) :
    (popRoute m dls).1.state = dls.state := by
  unfold popRoute
  split
  · rfl
  · simp only [connect, reduceIte]
    split
    · rfl
    · split <;> split <;> rfl

theorem popRoute_sent_len (m : Manager) (dls : DialogState) :
    (popRoute m dls).2.1.sent.length ≤ 1 := by
  unfold popRoute
  split
  · simp
  · simp only [connect, reduceIte]
    split
    · simp
    · split <;> simp

theorem popRoute_inv (m : Manager) (dls : DialogState)
    (h1 : dls.requestResends ≤ m.maxResends)
    (h2 : dls.routeSends ≤ dls.requestResends + 1) :
    (popRoute m dls).1.requestResends ≤ m.maxResends ∧
    (popRoute m dls).1.routeSends ≤ (popRoute m dls).1.requestResends + 1 := by
  unfold popRoute
  split
  · exact ⟨h1, h2⟩
  · simp only [connect, reduceIte]
    split
    · exact ⟨h1, h2⟩
    · split <;> split <;> simp

theorem popRoute_routes (m : Manager) (dls : DialogState) :
    (dls.routes = [] →
      (popRoute m dls).2.2 = false ∧ (popRoute m dls).2.1.errs ≠ []) ∧
    (dls.routes ≠ [] →
      (popRoute m dls).1.routes.length < dls.routes.length) := by
  constructor
  · intro h
    unfold popRoute
    rw [h]
    simp
  · intro h
    unfold popRoute
    rcases he : dls.routes with _ | ⟨a, rest⟩
    · exact absurd he h
    · simp only [connect, reduceIte, he]
      split
      · simp
      · split <;> split <;> simp

theorem populate_method (m : Manager) (v : Option Via) (c : Option Addr)
    (msg : Msg) : (PopulateMessage m v c msg).method = msg.method := by
  unfold PopulateMessage
  split <;> rfl

theorem populate_status (m : Manager) (v : Option Via) (c : Option Addr)
    (msg : Msg) : (PopulateMessage m v c msg).status = msg.status := by
  unfold PopulateMessage
  split <;> rfl

theorem populate_maxForwards (m : Manager) (v : Option Via) (c : Option Addr)
    (msg : Msg) :
    (PopulateMessage m v c msg).maxForwards =
      if msg.IsResponse then msg.maxForwards
      else if msg.maxForwards = 0 then 70 else msg.maxForwards := by
  unfold PopulateMessage
  split <;> simp_all

theorem routeMessage_ok_method (v : Option Via) (c : Option Addr)
    (msg msg2 : Msg) (host : String) (port : Nat)
    (h : RouteMessage v c msg = .ok (host, port, msg2)) :
    msg2.method = msg.method ∧ msg2.status = msg.status ∧
    msg2.maxForwards = msg.maxForwards := by
  unfold RouteMessage at h
  repeat' (first | split at h | simp only [] at h)
  all_goals
    first
    | (simp only [Except.ok.injEq, Prod.mk.injEq] at h
       obtain ⟨h1, h2, h3⟩ := h
       subst h3
       exact ⟨rfl, rfl, rfl⟩)
    | simp at h

theorem addTimestamp_method (m : Manager) (msg : Msg) :
    (addTimestamp m msg).method = msg.method := by
  unfold addTimestamp
  split <;> [skip; rfl]
  split <;> rfl

theorem addTimestamp_status (m : Manager) (msg : Msg) :
    (addTimestamp m msg).status = msg.status := by
  unfold addTimestamp
  split <;> [skip; rfl]
  split <;> rfl

theorem send_ok_fields (m : Manager) (msg w : Msg) (host : String) (port : Nat)
    (h : Send m msg = .ok (w, host, port)) :
    w.method = msg.method ∧ w.status = msg.status := by
  unfold Send sendDest at h
  rcases hp : m.proxyAddress with _ | d <;> rw [hp] at h <;> simp only [] at h
  · rcases hr : RouteMessage (some m.via) (some m.contact)
        (PopulateMessage m (some m.via) (some m.contact) msg) with e | ⟨hh, pp, m2⟩ <;>
      rw [hr] at h <;> simp only [] at h
    · simp at h
    · rcases hru : m.resolveUDP hh pp with _ | a <;> rw [hru] at h <;>
        simp only [] at h
      · simp at h
      · have hm2 := routeMessage_ok_method (some m.via) (some m.contact) _ _ _ _ hr
        repeat' split at h
        all_goals
          first
          | (simp only [Except.ok.injEq, Prod.mk.injEq] at h
             obtain ⟨h1, h2⟩ := h
             subst h1
             constructor <;>
               simp [addTimestamp_method, addTimestamp_status, hm2.1, hm2.2.1,
                 populate_method, populate_status])
          | simp at h
  · repeat' split at h
    all_goals
      first
      | (simp only [Except.ok.injEq, Prod.mk.injEq] at h
         obtain ⟨h1, h2⟩ := h
         subst h1
         constructor <;>
           simp [addTimestamp_method, addTimestamp_status,
             populate_method, populate_status])
      | simp at h

theorem sendRequest_state (m : Manager) (dls : DialogState) (req : Msg)
    (b : Bool) : (sendRequest m dls req b).1.state = dls.state := by
  unfold sendRequest
  repeat' (first | split | simp only [])
  all_goals first | rfl | rw [popRoute_state]

theorem sendRequest_sent_len (m : Manager) (dls : DialogState) (req : Msg)
    (b : Bool) : (sendRequest m dls req b).2.1.sent.length ≤ 1 := by
  unfold sendRequest
  repeat' (first | split | simp only [])
  all_goals first | simp | exact popRoute_sent_len m _

theorem resendRequest_state (m : Manager) (dls : DialogState) :
    (resendRequest m dls).1.state = dls.state := by
  unfold resendRequest
  repeat' split
  all_goals first | rfl | rw [popRoute_state]

theorem resendResponse_state (m : Manager) (dls : DialogState) :
    (resendResponse m dls).1.state = dls.state := by
  unfold resendResponse
  repeat' split
  all_goals first | rfl | rw [popRoute_state]

set_option maxHeartbeats 1000000 in
theorem handleResponse_state (m : Manager) (dls : DialogState) (msg : Msg) :
    (handleResponse m dls msg).1.state = dls.state ∨
    (handleResponse m dls msg).1.state = StateProceeding ∨
    (handleResponse m dls msg).1.state = StateRinging ∨
    (handleResponse m dls msg).1.state = StateAnswered ∨
    (handleResponse m dls msg).1.state = StateHangup := by
  unfold handleResponse
  repeat' (first | split | simp only [transition] | simp only [])
  all_goals
    first
    | simp
    | (rw [popRoute_state]; simp)
    | (rw [sendRequest_state]; simp)

set_option maxHeartbeats 1000000 in
theorem handleRequest_state (m : Manager) (dls : DialogState) (msg : Msg) :
    (handleRequest m dls msg).1.state = dls.state ∨
    (handleRequest m dls msg).1.state = StateHangup := by
  unfold handleRequest sendResponse
  repeat' (first | split | simp only [transition] | simp only [])
  all_goals simp

theorem hangup_state (m : Manager) (dls : DialogState) :
    (hangup m dls).1.state = dls.state ∨
    (hangup m dls).1.state = StateHangup := by
  unfold hangup
  repeat' (first | split | simp only [transition] | simp only [])
  all_goals
    first
    | simp
    | (rw [sendRequest_state]; simp)
    | (rename_i heq
       simp only [transition, Prod.mk.injEq] at heq
       obtain ⟨h1, h2⟩ := heq
       subst h1
       simp)

/-- `dls.populate` does not change the method. -/
theorem dialogPopulate_method (m : Manager) (msg : Msg) :
    (dialogPopulate m msg).method = msg.method := by
  unfold dialogPopulate
  rw [populate_method]

theorem send_response_proxy (m : Manager) (d : String × Nat) (msg : Msg)
    (hp : m.proxyAddress = some d) (hresp : msg.IsResponse = true)
    (hmf : msg.maxForwards = 0) :
    Send m msg = .ok (addTimestamp m msg, d.1, d.2) := by
  have hpop : PopulateMessage m (some m.via) (some m.contact) msg = msg := by
    unfold PopulateMessage
    simp [hresp]
  unfold Send sendDest
  rw [hpop, hp]
  simp [hmf]

theorem popRoute_sent_method (m : Manager) (dls : DialogState) (req : Msg)
    (hreq : dls.request = some req) :
    ∀ w ∈ (popRoute m dls).2.1.sent, w.method = req.method := by
  unfold popRoute
  split
  · simp
  · simp only [connect, reduceIte, hreq]
    rcases hs : Send m (dialogPopulate m req) with e | ⟨w0, h0, p0⟩ <;>
      simp only [hs]
    · simp
    · intro w hw
      simp at hw
      subst hw
      rw [(send_ok_fields m _ _ _ _ hs).1, dialogPopulate_method]

theorem sendRequest_sent_method (m : Manager) (dls : DialogState) (req : Msg)
    (b : Bool) :
    ∀ w ∈ (sendRequest m dls req b).2.1.sent, w.method = req.method := by
  unfold sendRequest
  rcases hr : RouteMessage none none req with e | ⟨hh, pp, req2⟩ <;>
    simp only [hr]
  · simp
  · split
    · simp
    · intro w hw
      have h2 := popRoute_sent_method m _ req2 rfl w hw
      rw [h2, (routeMessage_ok_method none none req req2 hh pp hr).1]

theorem sendRequest_inv (m : Manager) (dls : DialogState) (req : Msg)
    (b : Bool) (h1 : dls.requestResends ≤ m.maxResends)
    (h2 : dls.routeSends ≤ dls.requestResends + 1) :
    (sendRequest m dls req b).1.requestResends ≤ m.maxResends ∧
    (sendRequest m dls req b).1.routeSends ≤
      (sendRequest m dls req b).1.requestResends + 1 := by
  unfold sendRequest
  repeat' (first | split | simp only [])
  all_goals first | exact ⟨h1, h2⟩ | exact popRoute_inv m _ h1 h2

theorem routeMessage_error_ne (v : Option Via) (c : Option Addr) (msg : Msg)
    (e : String) (h : RouteMessage v c msg = .error e) :
    e ≠ ErrLocalLoopDetected := by
  unfold RouteMessage at h
  repeat' (first | split at h | simp only [] at h)
  all_goals
    first
    | (simp only [Except.error.injEq] at h
       subst h
       decide)
    | simp at h

theorem sendDest_error_ne (m : Manager) (p : Msg) (e : String)
    (h : sendDest m p = .error e) : e ≠ ErrLocalLoopDetected := by
  unfold sendDest at h
  rcases hp : m.proxyAddress with _ | d <;> rw [hp] at h <;> simp only [] at h
  · rcases hr : RouteMessage (some m.via) (some m.contact) p with e0 | ⟨hh, pp, m2⟩ <;>
      rw [hr] at h <;> simp only [] at h
    · simp only [Except.error.injEq] at h
      subst h
      exact routeMessage_error_ne _ _ _ _ hr
    · rcases hru : m.resolveUDP hh pp with _ | a <;> rw [hru] at h <;>
        simp only [] at h
      · simp only [Except.error.injEq] at h
        subst h
        decide
      · simp at h
  · simp at h

theorem sendDest_ok_maxForwards (m : Manager) (p m2 : Msg) (d : String × Nat)
    (h : sendDest m p = .ok (d, m2)) : m2.maxForwards = p.maxForwards := by
  unfold sendDest at h
  rcases hp : m.proxyAddress with _ | d0 <;> rw [hp] at h <;> simp only [] at h
  · rcases hr : RouteMessage (some m.via) (some m.contact) p with e0 | ⟨hh, pp, m3⟩ <;>
      rw [hr] at h <;> simp only [] at h
    · simp at h
    · rcases hru : m.resolveUDP hh pp with _ | a <;> rw [hru] at h <;>
        simp only [] at h
      · simp at h
      · simp only [Except.ok.injEq, Prod.mk.injEq] at h
        obtain ⟨h1, h2⟩ := h
        subst h2
        exact (routeMessage_ok_method _ _ _ _ _ _ hr).2.2
  · simp only [Except.ok.injEq, Prod.mk.injEq] at h
    obtain ⟨h1, h2⟩ := h
    subst h2
    rfl

end Dialog

/-! ## The claims -/

/-- C1: the SDP round-trip property fails on the code.  `c1Input`
parses in strict mode with no warnings and its media section holds
`Other = [("b", "AS:64")]`; serializing with `Append` drops the line
(`Media.Append` never writes `Other`), so re-parsing succeeds but
yields a structure whose media `Other` list is empty — not equal to
the first parse result. -/
theorem sdp_roundtrip_drops_media_other :
    c1First.isSome = true ∧ c1Second.isSome = true ∧ c1First ≠ c1Second ∧
    (c1First.map fun s => s.media.map Sdp.Media.other) =
      some [[("b", "AS:64")]] ∧
    (c1Second.map fun s => s.media.map Sdp.Media.other) = some [[]] := by
  set_option maxRecDepth 10000 in decide

/-- C8: the parser's mandatory-information check fires only when BOTH
the origin and the connection line are missing
(`!foundConn && !foundOrigin`).  A text lacking only the `c=` line
parses strictly with a nil error (and a blank `Addr`), and a text
lacking only the `o=` line parses strictly with a nil error (and a nil
`Origin`); only the text lacking both is rejected. -/
theorem sdp_parse_accepts_missing_conn_or_origin :
    ((Sdp.Parse c8NoConn true).toOption.map fun p =>
        (p.1.addr, p.1.origin.isSome, p.2)) = some ("", true, false) ∧
    ((Sdp.Parse c8NoOrigin true).toOption.map fun p =>
        (p.1.addr, p.1.origin.isSome, p.2)) = some ("10.0.0.38", false, false) ∧
    (Sdp.Parse c8NoBoth true).isOk = false := by
  set_option maxRecDepth 10000 in decide

/-- C10: an `m=` line whose port field parses to `0` makes
`NewMediaFromLine` return `nil, nil` (`.ok none`); `Parse` then marks
the media section as skipped without recording the media or any
warning, and while skipping, subsequent `c=` and `a=` lines leave the
parser state entirely unchanged. -/
theorem media_port_zero_skipped_silently (line : String) (strict : Bool)
    (t0 t1 t2 : String) (rest : List String)
    (hf : Sip.goFields line = t0 :: t1 :: t2 :: rest)
    (hr : rest ≠ [])
    (hm : strict = true → (Sdp.IsKnownMediaType t0).isSome = true)
    (hp : Sip.goParseUint ((Sip.goSplitAll t1 '/').headD "") 65535 = some 0) :
    Sdp.NewMediaFromLine line strict = .ok none ∧
    (∀ (st : Sdp.ParseState) (full : String) (c : Char) (cs : List Char),
       full.data = 'm' :: '=' :: c :: cs → full.drop 2 = line →
       Sdp.processLine strict st full =
         .ok { st.flushCur with skipping := true, cur := none }) ∧
    (∀ (st : Sdp.ParseState) (cline : String) (c0 c2 : Char) (cs : List Char),
       st.skipping = true → (c0 = 'c' ∨ c0 = 'a') →
       cline.data = c0 :: '=' :: c2 :: cs →
       Sdp.processLine strict st cline = .ok st) := by
  have hlen : ¬ (Sip.goFields line).length < 4 := by
    rw [hf]; cases rest with
    | nil => exact absurd rfl hr
    | cons x xs => simp
  have hmain : Sdp.NewMediaFromLine line strict = .ok none := by
    have hmt : (strict && (Sdp.IsKnownMediaType t0).isNone) = false := by
      cases strict with
      | false => rfl
      | true => simp [hm rfl]
    have hp2 : Sip.goParseUint ((Sip.goSplitAll t1 '/').head?.getD "") 65535 =
        some 0 := by
      rw [← List.headD_eq_head?]; exact hp
    unfold Sdp.NewMediaFromLine
    rw [if_neg hlen, hf]
    simp [hmt, hp2]
  refine ⟨hmain, ?_, ?_⟩
  · intro st full c cs hdata hdrop
    unfold Sdp.processLine
    rw [hdata]
    simp only [Char.reduceEq, Char.reduceNe, ne_eq, reduceCtorEq, reduceIte,
      hdrop, hmain, not_true, not_false_eq_true]
  · intro st cline c0 c2 cs hskip hc0 hdata
    unfold Sdp.processLine
    rw [hdata]
    rcases hc0 with h | h <;> subst h <;>
      simp only [Char.reduceEq, Char.reduceNe, ne_eq, reduceIte, hskip,
        not_true, not_false_eq_true]

/-- Witness for C10 at the disabled-video line of the test corpus:
`m=audio 0 RTP/AVP 0` in strict mode, followed by a skipped `c=`
line. -/
theorem media_port_zero_skipped_silently_witness :
    Sdp.NewMediaFromLine "audio 0 RTP/AVP 0" true = .ok none ∧
    Sdp.processLine true {} "m=audio 0 RTP/AVP 0" =
      .ok { skipping := true, cur := none } ∧
    Sdp.processLine true { skipping := true } "c=IN IP4 1.2.3.4" =
      .ok { skipping := true } := by
  have h := media_port_zero_skipped_silently "audio 0 RTP/AVP 0" true
    "audio" "0" "RTP/AVP" ["0"] (by decide) (by decide) (fun _ => by decide)
    (by decide)
  refine ⟨h.1, ?_, ?_⟩
  · exact h.2.1 {} "m=audio 0 RTP/AVP 0" 'a' "udio 0 RTP/AVP 0".data rfl rfl
  · exact h.2.2 { skipping := true } "c=IN IP4 1.2.3.4" 'c' 'I'
      "N IP4 1.2.3.4".data rfl (.inl rfl) rfl

/-- C2 counterexample: the transition function applies a matching
response's state unconditionally, so a late provisional 180 received in
the Answered state regresses the dialog to Ringing; the claim says the
state only ever advances. -/
theorem late_provisional_regresses_answered_state :
    dlsAnsweredA.state = Dialog.StateAnswered ∧
    Dialog.ResponseMatch inviteA rsp180A = true ∧
    (Dialog.step mgrProxy dlsAnsweredA (.recv rsp180A)).1.state =
      Dialog.StateRinging := by decide

namespace Dialog

/-- C2 (amended): one step of the dialog event loop keeps the state
within the machine's range (never beyond Hangup, and Failed is never
entered by a step), and for every event other than an incoming
response — incoming requests, both resend timers, and the hangup
signal — the state is monotone non-decreasing.  Monotonicity for
incoming responses is exactly what the counterexample refutes. -/
theorem dialog_state_monotone_amended (m : Manager) (dls : DialogState) (e : Event)
    (hS : dls.state ≤ StateHangup) :
    (step m dls e).1.state ≤ StateHangup ∧
    (eventIsResponse e = false → dls.state ≤ (step m dls e).1.state) := by
  cases e with
  | recv msg =>
    by_cases hr : msg.IsResponse
    · constructor
      · simp only [step, hr, reduceIte]
        rcases handleResponse_state m dls msg with h | h | h | h | h <;>
          rw [h] <;> first | exact hS | simp [StateProceeding, StateRinging, StateAnswered, StateHangup]
      · intro hfalse
        simp [eventIsResponse, hr] at hfalse
    · simp only [step, hr, reduceIte, Bool.false_eq_true]
      rcases handleRequest_state m dls msg with h | h <;> rw [h] <;>
        exact ⟨by omega, fun _ => by omega⟩
  | requestTimerFire =>
    simp only [step, resendRequest_state]
    exact ⟨hS, fun _ => le_refl _⟩
  | responseTimerFire =>
    simp only [step, resendResponse_state]
    exact ⟨hS, fun _ => le_refl _⟩
  | hangupSignal =>
    simp only [step]
    rcases hangup_state m dls with h | h <;> rw [h] <;>
      exact ⟨by omega, fun _ => by omega⟩

end Dialog

/-- Witness for C2 at the Answered fixture and the hangup signal. -/
theorem dialog_state_monotone_amended_witness :
    dlsAnsweredA.state ≤ Dialog.StateHangup ∧
    (Dialog.step mgrProxy dlsAnsweredA .hangupSignal).1.state ≤
      Dialog.StateHangup ∧
    (eventIsResponse .hangupSignal = false →
      dlsAnsweredA.state ≤
        (Dialog.step mgrProxy dlsAnsweredA .hangupSignal).1.state) :=
  ⟨by decide, Dialog.dialog_state_monotone_amended mgrProxy dlsAnsweredA .hangupSignal (by decide)⟩

/-- C3 counterexample: `handleRequest` checks MaxForwards before the
CSeq window, so a request whose CSeq is below `rSeq` but whose
MaxForwards is 0 is answered with 483 Too Many Hops (and the dialog is
torn down), not with the 500 the claim promises. -/
theorem zero_max_forwards_preempts_out_of_order_500 :
    dlsSeq5A.rSeq > 0 ∧ byeLow0A.cseq < dlsSeq5A.rSeq ∧
    ((Dialog.handleRequest mgrProxy dlsSeq5A byeLow0A).2.1.sent.map
      Dialog.Msg.status = [Dialog.StatusTooManyHops]) ∧
    (Dialog.handleRequest mgrProxy dlsSeq5A byeLow0A).2.2 = false := by decide

namespace Dialog

/-- C3 (amended): under the extra precondition MaxForwards > 0 (and a
manager in proxy mode so the 500 reply can be sent), an in-dialog
request whose CSeq is lower than the highest remote CSeq seen (`rSeq`,
already positive) is answered with 500 Internal Server Error and
otherwise leaves the dialog state unchanged, while a request with CSeq
at or above `rSeq` updates `rSeq` to the request's CSeq. -/
theorem out_of_order_request_gets_500_amended (m : Manager) (dls : DialogState) (msg : Msg) (d : String × Nat)
    (hp : m.proxyAddress = some d)
    (hrs : 0 < dls.rSeq) (hmf : 0 < msg.maxForwards) :
    (msg.cseq < dls.rSeq →
      handleRequest m dls msg =
        (dls,
         { sent := [addTimestamp m (NewResponse m msg StatusInternalServerError)] },
         true)) ∧
    (dls.rSeq ≤ msg.cseq → (handleRequest m dls msg).1.rSeq = msg.cseq) := by
  have hmf2 : ¬ msg.maxForwards ≤ 0 := by omega
  have hr0 : ¬ dls.rSeq = 0 := by omega
  have hsend : Send m (NewResponse m msg StatusInternalServerError) =
      .ok (addTimestamp m (NewResponse m msg StatusInternalServerError),
           d.1, d.2) :=
    send_response_proxy m d _ hp (by simp [Msg.IsResponse, NewResponse, StatusInternalServerError]) rfl
  constructor
  · intro hlt
    unfold handleRequest
    simp only [if_neg hmf2, if_neg hr0, if_pos hlt, hsend]
  · intro hge
    have hnlt : ¬ msg.cseq < dls.rSeq := by omega
    unfold handleRequest sendResponse
    simp only [if_neg hmf2, if_neg hr0, if_neg hnlt]
    repeat' (first | split | simp only [transition] | simp only [])
    all_goals simp_all

end Dialog

/-- Witness for C3 at the Answered fixture with `rSeq = 5` and a BYE
with CSeq 3 and MaxForwards 70. -/
theorem out_of_order_request_gets_500_amended_witness :
    (byeLowA.cseq < dlsSeq5A.rSeq →
      Dialog.handleRequest mgrProxy dlsSeq5A byeLowA =
        (dlsSeq5A,
         { sent := [Dialog.addTimestamp mgrProxy
             (Dialog.NewResponse mgrProxy byeLowA
               Dialog.StatusInternalServerError)] },
         true)) ∧
    (dlsSeq5A.rSeq ≤ byeLowA.cseq →
      (Dialog.handleRequest mgrProxy dlsSeq5A byeLowA).1.rSeq =
        byeLowA.cseq) :=
  Dialog.out_of_order_request_gets_500_amended mgrProxy dlsSeq5A byeLowA ("10.0.0.1", 5060) rfl (by decide)
    (by decide)

namespace Dialog

set_option maxHeartbeats 1000000 in
/-- C4: per selected route, a request is transmitted at most
`1 + maxResends` times.  `ResendInv` is inductive under every event of
the dialog loop; it bounds the per-route transmission count
(`routeSends`, the initial send of `popRoute` plus the resends of
`resendRequest`) by `maxResends + 1`; and when the resend budget is
exhausted at a timer fire, the dialog moves to the next route
(`routes` strictly shrinks) or, with no route left, fails with an
error. -/
theorem request_resend_bounded_per_route (m : Manager) (dls : DialogState) (e : Event)
    (h : ResendInv m dls) :
    ResendInv m (step m dls e).1 ∧
    (step m dls e).1.routeSends ≤ m.maxResends + 1 ∧
    (e = .requestTimerFire → dls.request.isSome = true →
      dls.requestTimer = true → dls.requestResends = m.maxResends →
      ((step m dls e).1.routes.length < dls.routes.length ∨
        ((step m dls e).2.2 = false ∧ (step m dls e).2.1.errs ≠ []))) := by
  obtain ⟨h1, h2⟩ := h
  have main : (step m dls e).1.requestResends ≤ m.maxResends ∧
      (step m dls e).1.routeSends ≤ (step m dls e).1.requestResends + 1 := by
    cases e with
    | recv msg =>
      by_cases hr : msg.IsResponse <;>
        simp only [step, hr, reduceIte, Bool.false_eq_true]
      · unfold handleResponse
        repeat' (first | split | simp only [transition] | simp only [])
        all_goals
          first
          | exact ⟨h1, h2⟩
          | exact popRoute_inv m _ h1 h2
          | exact sendRequest_inv m _ _ _ h1 h2
          | (rename_i heq
             simp only [transition, Prod.mk.injEq] at heq
             obtain ⟨ha, hb⟩ := heq
             subst ha
             exact ⟨h1, h2⟩)
      · unfold handleRequest sendResponse
        repeat' (first | split | simp only [transition] | simp only [])
        all_goals
          first
          | exact ⟨h1, h2⟩
          | (rename_i heq
             simp only [transition, Prod.mk.injEq] at heq
             obtain ⟨ha, hb⟩ := heq
             subst ha
             exact ⟨h1, h2⟩)
    | requestTimerFire =>
      simp only [step]
      unfold resendRequest
      repeat' (first | split | simp only [])
      all_goals
        first
        | exact ⟨h1, h2⟩
        | exact popRoute_inv m _ h1 h2
        | (constructor <;> simp_all <;> omega)
    | responseTimerFire =>
      simp only [step]
      unfold resendResponse
      repeat' (first | split | simp only [])
      all_goals
        first
        | exact ⟨h1, h2⟩
        | exact popRoute_inv m _ h1 h2
        | (constructor <;> simp_all <;> omega)
    | hangupSignal =>
      simp only [step]
      unfold hangup
      repeat' (first | split | simp only [transition] | simp only [])
      all_goals
        first
        | exact ⟨h1, h2⟩
        | exact sendRequest_inv m _ _ _ h1 h2
        | (rename_i heq
           simp only [transition, Prod.mk.injEq] at heq
           obtain ⟨ha, hb⟩ := heq
           subst ha
           exact ⟨h1, h2⟩)
  refine ⟨main, by omega, ?_⟩
  intro he hreq htimer hres
  subst he
  rcases hq : dls.request with _ | req
  · rw [hq] at hreq; simp at hreq
  · have hstep : step m dls .requestTimerFire = popRoute m dls := by
      simp only [step]
      unfold resendRequest
      rw [hq]
      simp [htimer, hres]
    rw [hstep]
    rcases hroutes : dls.routes with _ | ⟨a, rest⟩
    · right
      exact (popRoute_routes m dls).1 hroutes
    · left
      rw [← hroutes]
      exact (popRoute_routes m dls).2 (by rw [hroutes]; simp)

end Dialog

/-- Witness for C4 at a Proceeding fixture whose resend budget is
exhausted (`requestResends = maxResends = 2`, `routeSends = 3`) with
one alternative route left. -/
theorem request_resend_bounded_per_route_witness :
    Dialog.ResendInv mgrProxy
      (Dialog.step mgrProxy dlsResendA .requestTimerFire).1 ∧
    (Dialog.step mgrProxy dlsResendA .requestTimerFire).1.routeSends ≤
      mgrProxy.maxResends + 1 ∧
    (Dialog.Event.requestTimerFire = Dialog.Event.requestTimerFire →
      dlsResendA.request.isSome = true → dlsResendA.requestTimer = true →
      dlsResendA.requestResends = mgrProxy.maxResends →
      ((Dialog.step mgrProxy dlsResendA .requestTimerFire).1.routes.length <
          dlsResendA.routes.length ∨
        ((Dialog.step mgrProxy dlsResendA .requestTimerFire).2.2 = false ∧
          (Dialog.step mgrProxy dlsResendA .requestTimerFire).2.1.errs ≠ []))) :=
  Dialog.request_resend_bounded_per_route mgrProxy dlsResendA .requestTimerFire ⟨by decide, by decide⟩

/-- C5 counterexample: a response whose TOPMOST Via matches the
request's Via on host, port and branch — the claim's wording — is
still rejected by `ResponseMatch`, because the code compares the
response's LAST (bottom-most) Via (`rsp.Via.Last()`). -/
theorem response_match_ignores_topmost_via :
    ResponseMatchSpecTopmost reqC5 rspC5 ∧
    Dialog.ResponseMatch reqC5 rspC5 = false := by decide

/-- C5 (amended): `ResponseMatch` holds exactly when the message is a
response whose CSeq number and CSeq method equal the request's and
whose LAST (bottom-most) Via agrees with the request's topmost Via on
host and port and on the branch parameter. -/
theorem response_match_amended_last_via (req rsp : Dialog.Msg) :
    Dialog.ResponseMatch req rsp = true ↔ ResponseMatchSpecLast req rsp := by
  simp [Dialog.ResponseMatch, ResponseMatchSpecLast, Dialog.viaLast,
    Bool.and_eq_true, decide_eq_true_eq, and_assoc]

namespace Dialog

/-- C6: for a response that matches the INVITE and carries a Contact,
`NewAck` builds an ACK whose request URI is the response's Contact
URI, whose single Via is the response's topmost Via detached from the
rest, whose CSeq number is the INVITE's (with method ACK), whose Route
set is the response's Record-Route reversed, and which copies the
INVITE's Authorization and Proxy-Authorization. -/
theorem new_ack_fields_from_invite_and_response (m : Manager) (msg invite : Msg) (c : Addr)
    (hm : ResponseMatch invite msg = true) (hc : msg.contact = some c) :
    (NewAck m msg invite).method = "ACK" ∧
    (NewAck m msg invite).cseqMethod = "ACK" ∧
    (NewAck m msg invite).request = some c.uri ∧
    (NewAck m msg invite).via = viaDetach msg.via ∧
    (NewAck m msg invite).via.length = 1 ∧
    (NewAck m msg invite).cseq = invite.cseq ∧
    (NewAck m msg invite).route = msg.recordRoute.reverse ∧
    (NewAck m msg invite).authorization = invite.authorization ∧
    (NewAck m msg invite).proxyAuthorization = invite.proxyAuthorization := by
  simp only [ResponseMatch, Bool.and_eq_true, decide_eq_true_eq] at hm
  obtain ⟨⟨⟨⟨hr, hcs⟩, hcm⟩, hhp⟩, hbr⟩ := hm
  have hvia : msg.via ≠ [] := by
    intro hv
    rw [hv] at hhp
    simp [viaLast, viaCompareHostPort] at hhp
  refine ⟨rfl, rfl, ?_, rfl, ?_, ?_, rfl, rfl, rfl⟩
  · simp [NewAck, hc]
  · cases hv : msg.via with
    | nil => exact absurd hv hvia
    | cons v rest => simp [NewAck, viaDetach, hv]
  · simp [NewAck, hcs]

end Dialog

/-- Witness for C6 at the 200 OK fixture matching the INVITE
fixture. -/
theorem new_ack_fields_from_invite_and_response_witness :
    (Dialog.NewAck mgrDirect rsp200A inviteA).method = "ACK" ∧
    (Dialog.NewAck mgrDirect rsp200A inviteA).cseqMethod = "ACK" ∧
    (Dialog.NewAck mgrDirect rsp200A inviteA).request = some ackContactA.uri ∧
    (Dialog.NewAck mgrDirect rsp200A inviteA).via =
      Dialog.viaDetach rsp200A.via ∧
    (Dialog.NewAck mgrDirect rsp200A inviteA).via.length = 1 ∧
    (Dialog.NewAck mgrDirect rsp200A inviteA).cseq = inviteA.cseq ∧
    (Dialog.NewAck mgrDirect rsp200A inviteA).route =
      rsp200A.recordRoute.reverse ∧
    (Dialog.NewAck mgrDirect rsp200A inviteA).authorization =
      inviteA.authorization ∧
    (Dialog.NewAck mgrDirect rsp200A inviteA).proxyAuthorization =
      inviteA.proxyAuthorization :=
  Dialog.new_ack_fields_from_invite_and_response mgrDirect rsp200A inviteA ackContactA (by decide) rfl

/-- C7 counterexample: a REGISTER with a Route set and MaxForwards 1,
sent without an outbound proxy, makes `Send` fail with the routing
error of `RouteMessage`, not with `ErrLocalLoopDetected` — routing
errors preempt the loop check even though the decremented MaxForwards
would reach zero. -/
theorem send_route_error_preempts_loop_detection :
    0 < regC7.maxForwards ∧ regC7.maxForwards - 1 = 0 ∧
    sendErrorOf (Dialog.Send mgrDirect regC7) =
      some "Don't route REGISTER requests" ∧
    "Don't route REGISTER requests" ≠ Dialog.ErrLocalLoopDetected := by decide

namespace Dialog

/-- C7 (amended): `Send` returns `ErrLocalLoopDetected` exactly when
destination selection (proxy lookup / routing / DNS) succeeds on the
populated message and the populated MaxForwards is positive but hits
zero after the decrement — equivalently, the original request's
MaxForwards is exactly one.  In particular a request that arrives with
MaxForwards already at zero is never answered with the loop error:
population resets 0 to 70. -/
theorem send_local_loop_error_amended (m : Manager) (msg : Msg) :
    (Send m msg = .error ErrLocalLoopDetected ↔
      ((sendDest m (PopulateMessage m (some m.via) (some m.contact) msg)).isOk =
        true ∧ 0 < msg.maxForwards ∧ msg.maxForwards - 1 = 0)) ∧
    (msg.maxForwards ≤ 0 → Send m msg ≠ .error ErrLocalLoopDetected) := by
  have hpmf := populate_maxForwards m (some m.via) (some m.contact) msg
  have hiff : ∀ k : Int,
      (PopulateMessage m (some m.via) (some m.contact) msg).maxForwards = k →
      (k = 1 ↔ msg.maxForwards = 1) := by
    intro k hk
    rw [hpmf] at hk
    split at hk <;> [omega; (split at hk <;> omega)]
  have hmain : Send m msg = .error ErrLocalLoopDetected ↔
      ((sendDest m (PopulateMessage m (some m.via) (some m.contact) msg)).isOk =
        true ∧ 0 < msg.maxForwards ∧ msg.maxForwards - 1 = 0) := by
    constructor
    · intro h
      unfold Send at h
      simp only [] at h
      rcases hsd : sendDest m (PopulateMessage m (some m.via) (some m.contact) msg)
        with e | ⟨d, m2⟩ <;> rw [hsd] at h <;> simp only [] at h
      · simp only [Except.error.injEq] at h
        exact absurd h (sendDest_error_ne m _ e hsd)
      · refine ⟨by first | rfl | (rw [hsd]; rfl), ?_⟩
        have hm2 := sendDest_ok_maxForwards m _ m2 d hsd
        split at h
        · split at h
          · rename_i hpos hzero
            have h1 : msg.maxForwards = 1 :=
              (hiff m2.maxForwards hm2.symm).1 (by omega)
            omega
          · simp at h
        · simp at h
    · intro hh
      obtain ⟨hok, hpos, hdec⟩ := hh
      have hmf1 : msg.maxForwards = 1 := by omega
      rcases hsd : sendDest m (PopulateMessage m (some m.via) (some m.contact) msg)
        with e | ⟨d, m2⟩
      · rw [hsd] at hok
        simp [Except.isOk, Except.toBool] at hok
      · have hm2 := sendDest_ok_maxForwards m _ m2 d hsd
        have hm21 : m2.maxForwards = 1 := by
          rw [hm2]
          exact ((hiff _ rfl).2 hmf1)
        unfold Send
        simp only []
        rw [hsd]
        simp [hm21]
  refine ⟨hmain, fun h0 habs => ?_⟩
  have := hmain.1 habs
  omega

end Dialog

namespace Dialog

/-- C9: the `hangupDone` latch makes the application-facing `Hangup`
idempotent — however often it is called, at most one hangup signal is
emitted and the channel is never closed twice (no panic) — and the
dialog's hangup handler sends at most one message, which is a CANCEL
(early dialog) or a BYE (answered dialog). -/
theorem hangup_idempotent_and_single_teardown :
    (∀ n, (iterateHangup n {}).signals ≤ 1 ∧
      (iterateHangup n {}).panicked = false) ∧
    (∀ (m : Manager) (dls : DialogState),
      (hangup m dls).2.1.sent.length ≤ 1 ∧
      ∀ w ∈ (hangup m dls).2.1.sent, w.method = "CANCEL" ∨ w.method = "BYE") := by
  constructor
  · have hdone : ∀ n (d : DialogHandle), d.hangupDone = true →
        iterateHangup n d = d := by
      intro n
      induction n with
      | zero => intro d _; rfl
      | succ k ih =>
        intro d hd
        show iterateHangup k d.Hangup = d
        have : d.Hangup = d := by unfold DialogHandle.Hangup; rw [hd]; rfl
        rw [this, ih d hd]
    intro n
    cases n with
    | zero => exact ⟨Nat.zero_le 1, rfl⟩
    | succ k =>
      have he : iterateHangup (k + 1) ({} : DialogHandle) =
          DialogHandle.Hangup {} := by
        show iterateHangup k (DialogHandle.Hangup {}) = _
        exact hdone k _ rfl
      rw [he]
      exact ⟨le_refl 1, rfl⟩
  · intro m dls
    unfold hangup
    repeat' (first | split | simp only [transition] | simp only [])
    all_goals
      first
      | (rename_i hsend
         refine ⟨by simp, ?_⟩
         intro w hw
         simp at hw
         subst hw
         left
         exact (send_ok_fields m _ _ _ _ hsend).1)
      | (constructor
         · exact sendRequest_sent_len m _ _ _
         · intro w hw
           right
           exact sendRequest_sent_method m _ _ _ w hw)
      | (rename_i heq
         simp only [transition, Prod.mk.injEq] at heq
         obtain ⟨h1, h2⟩ := heq
         subst h1
         subst h2
         simp)
      | simp

end Dialog
